import Mathlib

/-!
# CPU mat converter (`source/tnn/device/cpu/cpu_mat_converter.cc`)

A shallow embedding of `CpuMatConverterAcc` and a verification of its contract.

Modelling conventions.

* A pointer into a buffer is the pair of the buffer's storage (a list of bytes) and an
  `Int` byte offset from the start of that storage.  Source and destination storages are
  distinct objects.
* Every byte access is bounds-checked by the model: an operation that would read or write
  a byte outside the storage it points into, or dereference a null storage, has no defined
  result and the model returns `none`.  A defined execution returns `some (status, dst)`,
  the returned `Status` together with the destination `Mat` after the call.
* A C++ `int` is 32 bits wide.  Its value is an `Int`, and every `int` sum and product
  the code computes is taken through `int_add` and `int_mul`, which wrap the mathematical
  result into `[-2^31, 2^31)` in two's complement, as the built code does; `/` and `%` are
  the truncating `Int.tdiv` and `Int.tmod`.  An `int` added to a pointer and a pointer
  advanced by a stride are exact (pointers are 64 bits wide); an `int` passed to `memcpy`
  as a size is converted to `size_t`, so a negative one leaves every storage.  The theorems
  about sizes and offsets carry the hypothesis that the byte counts involved fit in an
  `int`.
* The interpolation kernels `resize_bilinear` and `warpaffine_bilinear` live outside this
  file; they are parameters of the model (`Kernels`).
-/

namespace TNN

/-! ## Data model -/

/-- One `uint8_t`. -/
abbrev Byte := Fin 256

/-- The storage behind a non-null data pointer. -/
abbrev Bytes := List Byte

/-- The type `DimsVector`, a `std::vector<int>`. -/
abbrev DimsVector := List Int

/-- Modelled from the spec: the `DeviceType` enum is declared in a header that is not part
of this file; only equality of device tags is ever used. -/
abbrev DeviceType := Nat

/-- Modelled from the spec: the `MatType` enum is declared in a header that is not part of
this file.  The constructors are the tags this file names; `OTHER` stands for every
remaining tag. -/
inductive MatType where
  | N8UC3
  | N8UC4
  | NGRAY
  | NNV21
  | NNV12
  | NCHW_FLOAT
  | RESERVED_BFP16_TEST
  | OTHER (tag : Nat)
  deriving DecidableEq, Repr

/-- Modelled from the spec: the interpolation-type enum; this file names only
`INTERP_TYPE_LINEAR`. -/
inductive InterpType where
  | INTERP_TYPE_LINEAR
  | OTHER (tag : Nat)
  deriving DecidableEq, Repr

/-- Modelled from the spec: the border-type enum; this file names only
`BORDER_TYPE_CONSTANT`. -/
inductive BorderType where
  | BORDER_TYPE_CONSTANT
  | OTHER (tag : Nat)
  deriving DecidableEq, Repr

/-- The status codes this file uses. -/
inductive StatusCode where
  | TNN_OK
  | TNNERR_NULL_PARAM
  | TNNERR_PARAM_ERR
  deriving DecidableEq, Repr

/-- Modelled from the spec: `Status` is a result code with a human-readable message. -/
structure Status where
  code : StatusCode
  message : String
  deriving DecidableEq, Repr

/-- The conversion `Status ret = TNN_OK`. -/
def Status.OK : Status := ⟨StatusCode.TNN_OK, ""⟩

/-- Modelled from the spec: a `Mat` is a device tag, a pixel format, a dimension vector
`[batch, channel, height, width]` and a data pointer; `data = none` is the null pointer. -/
structure Mat where
  device_type : DeviceType
  mat_type : MatType
  dims : DimsVector
  data : Option Bytes
  deriving DecidableEq, Repr

/-- Modelled from the spec: accessor of the device tag. -/
def Mat.GetDeviceType (m : Mat) : DeviceType := m.device_type

/-- Modelled from the spec: accessor of the pixel format. -/
def Mat.GetMatType (m : Mat) : MatType := m.mat_type

/-- Modelled from the spec: accessor of the data pointer. -/
def Mat.GetData (m : Mat) : Option Bytes := m.data

/-- Modelled from the spec: accessor of the dimension vector. -/
def Mat.GetDims (m : Mat) : DimsVector := m.dims

/-- Modelled from the spec: entry `index` of the dimension vector (0 when absent). -/
def Mat.GetDim (m : Mat) (index : Nat) : Int := m.dims.getD index 0

/-- Modelled from the spec: the batch count, entry 0 of the dims. -/
def Mat.GetBatch (m : Mat) : Int := m.GetDim 0

/-- Modelled from the spec: the channel count, entry 1 of the dims. -/
def Mat.GetChannel (m : Mat) : Int := m.GetDim 1

/-- Modelled from the spec: the height, entry 2 of the dims. -/
def Mat.GetHeight (m : Mat) : Int := m.GetDim 2

/-- Modelled from the spec: the width, entry 3 of the dims. -/
def Mat.GetWidth (m : Mat) : Int := m.GetDim 3

/-- Modelled from the spec: `DimsVectorUtils::Count`, the product of all entries. -/
def DimsVectorUtils.Count (dims : DimsVector) : Int := dims.foldl (fun result d => result * d) 1

/-- Modelled from the spec: the number of bytes of storage a `Mat` of the given format and
dims owns: element size (4 for float, 1 otherwise) times the count of the dims, the channel
entry being taken as 4 for the packed 4-channel byte format. -/
def MatType.byteSize (t : MatType) (dims : DimsVector) : Int :=
  match t with
  | MatType.NCHW_FLOAT => DimsVectorUtils.Count dims * 4
  | MatType.N8UC4 => DimsVectorUtils.Count (dims.set 1 4)
  | _ => DimsVectorUtils.Count dims

/-- Modelled from the spec: the constructor `Mat(device_type, mat_type, dims)` allocates
storage sized by the format and dims.  The contents of fresh storage are unspecified; the
model fills it with zero bytes. -/
def Mat.create (device_type : DeviceType) (mat_type : MatType) (dims : DimsVector) : Mat :=
  { device_type := device_type, mat_type := mat_type, dims := dims,
    data := some (List.replicate (mat_type.byteSize dims).toNat 0) }

/-- The record `ResizeParam`; only its `type` field is read. -/
structure ResizeParam where
  type : InterpType
  deriving DecidableEq, Repr

/-- The record `CropParam`. -/
structure CropParam where
  top_left_x : Int
  top_left_y : Int
  width : Int
  height : Int
  deriving DecidableEq, Repr

/-- The record `WarpAffineParam`; `F` stands for `float`, whose arithmetic happens only
inside the external kernel. -/
structure WarpAffineParam (F : Type) where
  transform : List (List F)
  interp_type : InterpType
  border_type : BorderType
  border_val : F

/-- The external numeric kernels.  Each receives the source pointer (storage and offset),
the plane geometry and the destination pointer, and returns the destination storage after
its writes. -/
structure Kernels (F : Type) where
  resize_bilinear : Bytes → Int → Int → Int → Bytes → Int → Int → Int → Bytes
  warpaffine_bilinear :
    Bytes → Int → Int → Int → Int → Bytes → Int → Int → Int → List (List F) → F → Bytes

/-! ## `int` arithmetic -/

/-- The value held by a C++ `int` after a computation whose mathematical result is `v`: `v`
itself when `-2^31 ≤ v < 2^31`, and `v` wrapped modulo `2^32` into that range otherwise. -/
def int32 (v : Int) : Int := (v + 2147483648) % 4294967296 - 2147483648

/-- The `int` sum `a + b`. -/
def int_add (a b : Int) : Int := int32 (a + b)

/-- The `int` product `a * b`. -/
def int_mul (a b : Int) : Int := int32 (a * b)

/-! ## Memory primitives -/

/-- The call `memcpy(dst + dst_ptr, src + src_ptr, n)`.  Copying zero bytes touches no
memory.  A negative `n` converts to a huge `size_t` and leaves every storage. -/
def memcpy (dst : Bytes) (dst_ptr : Int) (src : Bytes) (src_ptr : Int) (n : Int) :
    Option Bytes :=
  if n = 0 then some dst
  else if 0 < n ∧ 0 ≤ src_ptr ∧ src_ptr + n ≤ src.length ∧
      0 ≤ dst_ptr ∧ dst_ptr + n ≤ dst.length then
    some (dst.take dst_ptr.toNat ++ ((src.drop src_ptr.toNat).take n.toNat ++
      dst.drop (dst_ptr.toNat + n.toNat)))
  else none

/-- The body of the row loop of `MatMemcpy_2d`, with `rows` iterations left. -/
def MatMemcpy_2d.loop (src : Bytes) (width src_stride dst_stride : Int) :
    Nat → Int → Int → Bytes → Option Bytes
  | 0, _, _, dst => some dst
  | rows + 1, src_ptr, dst_ptr, dst =>
    match memcpy dst dst_ptr src src_ptr width with
    | none => none
    | some dst1 =>
      MatMemcpy_2d.loop src width src_stride dst_stride rows
        (src_ptr + src_stride) (dst_ptr + dst_stride) dst1

/-- The function `CpuMatConverterAcc::MatMemcpy_2d`: `height` rows of `width` bytes. -/
def MatMemcpy_2d (src : Bytes) (src_ptr : Int) (dst : Bytes) (dst_ptr : Int)
    (width height src_stride dst_stride : Int) : Option Bytes :=
  MatMemcpy_2d.loop src width src_stride dst_stride height.toNat src_ptr dst_ptr dst

/-! ## Operations -/

/-- The function `CpuMatConverterAcc::Copy`.  It tests neither pointer: a null source or
destination reaches `memcpy`, and `dims[1] = 4` on a vector of fewer than two entries
writes outside the vector; both are executions without a defined result.  `Count` returns
an `int`, and the byte count `size_in_bytes` is the `int` product of that value and the
element size. -/
def Copy (src dst : Mat) : Option (Status × Mat) :=
  let ret := Status.OK
  let mat_type := src.GetMatType
  let dims := src.GetDims
  let sized : Option (Int × DimsVector) :=
    if mat_type = MatType.NCHW_FLOAT then some (4, dims)
    else if mat_type = MatType.N8UC4 then
      (if 1 < dims.length then some (1, dims.set 1 4) else none)
    else some (1, dims)
  match sized with
  | none => none
  | some (data_type_size, dims1) =>
    let size_in_bytes := int_mul (int32 (DimsVectorUtils.Count dims1)) data_type_size
    match dst.GetData, src.GetData with
    | some dstData, some srcData =>
      match memcpy dstData 0 srcData 0 size_in_bytes with
      | none => none
      | some d => some (ret, { dst with data := some d })
    | _, _ => none

/-- The destination after the step `if (dst.GetData() == nullptr) dst = Mat(...)`. -/
def Mat.allocateIfNull (dst : Mat) : Mat :=
  match dst.GetData with
  | none => Mat.create dst.GetDeviceType dst.GetMatType dst.GetDims
  | some _ => dst

/-- The batch loop of `Resize`, with `todo` iterations left, `batch` the loop counter and
`dstData` the destination storage so far.  The counter stays below the `int` it is compared
with, so `batch++` is exact. -/
def Resize.loop {F : Type} (K : Kernels F) (src dst : Mat) (srcData : Bytes) (channel : Int) :
    Nat → Int → Bytes → Bytes
  | 0, _, dstData => dstData
  | todo + 1, batch, dstData =>
    let src_ptr := int_mul (int_mul (int_mul batch src.GetWidth) src.GetHeight) channel
    let dst_ptr := int_mul (int_mul (int_mul batch dst.GetWidth) dst.GetHeight) channel
    Resize.loop K src dst srcData channel todo (batch + 1)
      (K.resize_bilinear srcData src_ptr src.GetWidth src.GetHeight
        dstData dst_ptr dst.GetWidth dst.GetHeight)

/-- The function `CpuMatConverterAcc::Resize`. -/
def Resize {F : Type} (K : Kernels F) (src dst : Mat) (param : ResizeParam) :
    Option (Status × Mat) :=
  let ret := Status.OK
  match src.GetData with
  | none => some (⟨StatusCode.TNNERR_NULL_PARAM, "input mat is null"⟩, dst)
  | some srcData =>
    if src.GetDeviceType ≠ dst.GetDeviceType then
      some (⟨StatusCode.TNNERR_PARAM_ERR, "src and dst mat type must be same"⟩, dst)
    else
      let dst := dst.allocateIfNull
      if src.GetMatType = MatType.NCHW_FLOAT then
        some (⟨StatusCode.TNNERR_PARAM_ERR, "convert type not support yet"⟩, dst)
      else if src.GetMatType = MatType.N8UC4 then
        let channel := src.GetChannel
        if param.type = InterpType.INTERP_TYPE_LINEAR then
          match dst.GetData with
          | none => none
          | some dstData =>
            let d := Resize.loop K src dst srcData channel src.GetBatch.toNat 0 dstData
            some (ret, { dst with data := some d })
        else
          some (⟨StatusCode.TNNERR_PARAM_ERR, "interpolation type not support yet"⟩, dst)
      else if src.GetMatType = MatType.N8UC3 then
        some (⟨StatusCode.TNNERR_PARAM_ERR, "convert type not support yet"⟩, dst)
      else if src.GetMatType = MatType.NGRAY then
        some (⟨StatusCode.TNNERR_PARAM_ERR, "convert type not support yet"⟩, dst)
      else if src.GetMatType = MatType.RESERVED_BFP16_TEST then
        some (⟨StatusCode.TNNERR_PARAM_ERR, "convert type not support yet"⟩, dst)
      else
        some (⟨StatusCode.TNNERR_PARAM_ERR, "convert type not support yet"⟩, dst)

/-- The batch loop of the `N8UC4` branch of `Crop`.  The plane offset and the region offset
are two `int` values added to the data pointer one after the other. -/
def Crop.loop (src dst : Mat) (srcData : Bytes) (param : CropParam) (channel : Int) :
    Nat → Int → Bytes → Option Bytes
  | 0, _, dstData => some dstData
  | todo + 1, batch, dstData =>
    let src_ptr := int_mul (int_mul (int_mul batch src.GetWidth) src.GetHeight) channel +
      int_mul (int_add param.top_left_x (int_mul param.top_left_y src.GetWidth)) channel
    let dst_ptr := int_mul (int_mul (int_mul batch dst.GetWidth) dst.GetHeight) channel + 0
    match MatMemcpy_2d srcData src_ptr dstData dst_ptr (int_mul param.width channel)
        param.height (int_mul src.GetWidth channel) (int_mul dst.GetWidth channel) with
    | none => none
    | some d => Crop.loop src dst srcData param channel todo (batch + 1) d

/-- The function `CpuMatConverterAcc::Crop`.  Every offset, row width and stride handed to
`MatMemcpy_2d` is the `int` value of the source expression. -/
def Crop (src dst : Mat) (param : CropParam) : Option (Status × Mat) :=
  let ret := Status.OK
  match src.GetData with
  | none => some (⟨StatusCode.TNNERR_NULL_PARAM, "input mat is null"⟩, dst)
  | some srcData =>
    if src.GetDeviceType ≠ dst.GetDeviceType then
      some (⟨StatusCode.TNNERR_PARAM_ERR, "src and dst mat type must be same"⟩, dst)
    else
      let dst := dst.allocateIfNull
      if src.GetMatType = MatType.NGRAY then
        match dst.GetData with
        | none => none
        | some dstData =>
          -- element size 1
          let src_ptr := int_add param.top_left_x (int_mul param.top_left_y src.GetWidth)
          let dst_ptr := 0
          match MatMemcpy_2d srcData src_ptr dstData dst_ptr param.width param.height
              src.GetWidth dst.GetWidth with
          | none => none
          | some d => some (ret, { dst with data := some d })
      else if src.GetMatType = MatType.N8UC3 then
        match dst.GetData with
        | none => none
        | some dstData =>
          -- element size 3
          let src_ptr :=
            int_mul (int_add param.top_left_x (int_mul param.top_left_y src.GetWidth)) 3
          let dst_ptr := 0
          match MatMemcpy_2d srcData src_ptr dstData dst_ptr (int_mul param.width 3)
              param.height (int_mul src.GetWidth 3) (int_mul dst.GetWidth 3) with
          | none => none
          | some d => some (ret, { dst with data := some d })
      else if src.GetMatType = MatType.N8UC4 then
        match dst.GetData with
        | none => none
        | some dstData =>
          -- element size 4
          let channel := 4
          match Crop.loop src dst srcData param channel src.GetBatch.toNat 0 dstData with
          | none => none
          | some d => some (ret, { dst with data := some d })
      else if src.GetMatType = MatType.NNV21 ∨ src.GetMatType = MatType.NNV12 then
        if param.top_left_x.tmod 2 ≠ 0 ∨ param.top_left_y.tmod 2 ≠ 0 ∨
            param.width.tmod 2 ≠ 0 ∨ param.height.tmod 2 ≠ 0 then
          some (⟨StatusCode.TNNERR_PARAM_ERR, "corp param can not be odd"⟩, dst)
        else
          match dst.GetData with
          | none => none
          | some dstData =>
            -- crop y
            let src_ptr := int_add param.top_left_x (int_mul param.top_left_y param.width)
            let dst_ptr := 0
            match MatMemcpy_2d srcData src_ptr dstData dst_ptr param.width param.height
                src.GetWidth dst.GetWidth with
            | none => none
            | some d1 =>
              -- crop uv
              let src_ptr :=
                int_add (int_add (int_mul src.GetWidth src.GetHeight) param.top_left_x)
                  ((int_mul param.top_left_y src.GetWidth).tdiv 2)
              let dst_ptr := int_mul dst.GetWidth dst.GetHeight
              match MatMemcpy_2d srcData src_ptr d1 dst_ptr param.width (param.height.tdiv 2)
                  src.GetWidth dst.GetWidth with
              | none => none
              | some d2 => some (ret, { dst with data := some d2 })
      else
        some (⟨StatusCode.TNNERR_PARAM_ERR, "convert type not support yet"⟩, dst)

/-- The batch loop shared by the three supported branches of `WarpAffine`. -/
def WarpAffine.loop {F : Type} (K : Kernels F) (src dst : Mat) (srcData : Bytes)
    (param : WarpAffineParam F) (channel : Int) : Nat → Int → Bytes → Bytes
  | 0, _, dstData => dstData
  | todo + 1, batch, dstData =>
    let src_ptr := int_mul (int_mul (int_mul batch src.GetWidth) src.GetHeight) channel
    let dst_ptr := int_mul (int_mul (int_mul batch dst.GetWidth) dst.GetHeight) channel
    WarpAffine.loop K src dst srcData param channel todo (batch + 1)
      (K.warpaffine_bilinear srcData src_ptr src.GetWidth src.GetHeight channel
        dstData dst_ptr dst.GetWidth dst.GetHeight param.transform param.border_val)

/-- One supported branch of `WarpAffine`: the interpolation/border test and the loop
`for (int batch = 0; batch < src.GetDims()[0]; batch++)`.  Reading entry 0 of an empty
dims vector is an access outside the vector. -/
def WarpAffine.branch {F : Type} (K : Kernels F) (src dst : Mat) (srcData : Bytes)
    (param : WarpAffineParam F) (channel : Int) : Option (Status × Mat) :=
  if param.interp_type = InterpType.INTERP_TYPE_LINEAR ∧
      param.border_type = BorderType.BORDER_TYPE_CONSTANT then
    match src.GetDims.head?, dst.GetData with
    | some batches, some dstData =>
      let d := WarpAffine.loop K src dst srcData param channel batches.toNat 0 dstData
      some (Status.OK, { dst with data := some d })
    | _, _ => none
  else
    some (⟨StatusCode.TNNERR_PARAM_ERR, "warpaffine type not support yet"⟩, dst)

/-- The function `CpuMatConverterAcc::WarpAffine`. -/
def WarpAffine {F : Type} (K : Kernels F) (src dst : Mat) (param : WarpAffineParam F) :
    Option (Status × Mat) :=
  match src.GetData with
  | none => some (⟨StatusCode.TNNERR_NULL_PARAM, "input mat is null"⟩, dst)
  | some srcData =>
    if src.GetDeviceType ≠ dst.GetDeviceType then
      some (⟨StatusCode.TNNERR_PARAM_ERR, "src and dst mat type must be same"⟩, dst)
    else
      let dst := dst.allocateIfNull
      if src.GetMatType = MatType.NGRAY then
        WarpAffine.branch K src dst srcData param 1
      else if src.GetMatType = MatType.N8UC3 then
        WarpAffine.branch K src dst srcData param 3
      else if src.GetMatType = MatType.N8UC4 then
        WarpAffine.branch K src dst srcData param 4
      else
        some (⟨StatusCode.TNNERR_PARAM_ERR, "convert type not support yet"⟩, dst)

/-- The function `CpuMatConverterAcc::BGR2Gray`. -/
def BGR2Gray (_src dst : Mat) : Option (Status × Mat) := some (Status.OK, dst)

/-! ## The result taxonomy of the specification, read on the returned `Status` -/

/-- Success. -/
def Status.IsOk (s : Status) : Prop := s.code = StatusCode.TNN_OK

/-- The error reported for an absent source storage. -/
def Status.IsNullInputError (s : Status) : Prop := s.code = StatusCode.TNNERR_NULL_PARAM

/-- The error reported when the device tags of source and destination differ. -/
def Status.IsDeviceMismatchError (s : Status) : Prop :=
  s = ⟨StatusCode.TNNERR_PARAM_ERR, "src and dst mat type must be same"⟩

/-- The error reported for odd crop parameters on a chroma-subsampled format. -/
def Status.IsInvalidCropRegionError (s : Status) : Prop :=
  s = ⟨StatusCode.TNNERR_PARAM_ERR, "corp param can not be odd"⟩

/-- The error reported for an unsupported format, interpolation type or border type. -/
def Status.IsUnsupportedOperationError (s : Status) : Prop :=
  s.code = StatusCode.TNNERR_PARAM_ERR ∧
    (s.message = "convert type not support yet" ∨
      s.message = "interpolation type not support yet" ∨
      s.message = "warpaffine type not support yet")

instance (s : Status) : Decidable s.IsOk := by unfold Status.IsOk; infer_instance
instance (s : Status) : Decidable s.IsNullInputError := by
  unfold Status.IsNullInputError; infer_instance
instance (s : Status) : Decidable s.IsDeviceMismatchError := by
  unfold Status.IsDeviceMismatchError; infer_instance
instance (s : Status) : Decidable s.IsInvalidCropRegionError := by
  unfold Status.IsInvalidCropRegionError; infer_instance
instance (s : Status) : Decidable s.IsUnsupportedOperationError := by
  unfold Status.IsUnsupportedOperationError; infer_instance

/-! ## Vocabulary of the statements -/

/-- The bytes `[off, off + n)` of a storage. -/
def slice (m : Bytes) (off n : Int) : Bytes := (m.drop off.toNat).take n.toNat

/-- The storage `[start, start + 1, ..., start + n - 1]` (modulo 256), used in examples. -/
def ramp (start n : Nat) : Bytes := (List.range n).map fun i => Fin.ofNat (start + i)

/-- A stand-in for the external kernels that writes nothing, used in examples. -/
def Kernels.writeNothing : Kernels Unit where
  resize_bilinear := fun _ _ _ _ dstData _ _ _ => dstData
  warpaffine_bilinear := fun _ _ _ _ _ dstData _ _ _ _ _ => dstData

/-- A stand-in for the external kernels, used in examples: nearest-neighbour sampling of the
top-left pixel.  Every byte `j` of the destination plane (`dw × dh` pixels of `channel`
bytes at `dst_ptr`; 4 bytes per pixel for the resize kernel, which has no channel argument)
becomes byte `j % channel` of the first pixel of the source plane at `src_ptr`.  It is a
pure function of the source plane. -/
def Kernels.topLeftPixel : Kernels Unit where
  resize_bilinear := fun srcData src_ptr _ _ dstData dst_ptr dw dh =>
    dstData.take dst_ptr.toNat ++
      ((List.range (dw * dh * 4).toNat).map fun j => srcData.getD (src_ptr.toNat + j % 4) 0) ++
      dstData.drop (dst_ptr.toNat + (dw * dh * 4).toNat)
  warpaffine_bilinear := fun srcData src_ptr _ _ channel dstData dst_ptr dw dh _ _ =>
    dstData.take dst_ptr.toNat ++
      ((List.range (dw * dh * channel).toNat).map fun j =>
        srcData.getD (src_ptr.toNat + j % channel.toNat) 0) ++
      dstData.drop (dst_ptr.toNat + (dw * dh * channel).toNat)

/-- A stand-in for the external kernels, used in examples: each call appends the source
offset and the destination offset it receives to the destination storage, so the storage
returned by an operation lists the plane offsets of its kernel calls in order. -/
def Kernels.recordOffsets : Kernels Unit where
  resize_bilinear := fun _ src_ptr _ _ dstData dst_ptr _ _ =>
    dstData ++ [Fin.ofNat src_ptr.toNat, Fin.ofNat dst_ptr.toNat]
  warpaffine_bilinear := fun _ src_ptr _ _ _ dstData dst_ptr _ _ _ _ =>
    dstData ++ [Fin.ofNat src_ptr.toNat, Fin.ofNat dst_ptr.toNat]

/-- The reference definition of the strided copy, in the words of the specification.  Byte
`i` of the result is: when `i` lies in the destination range
`[dst_ptr + r×dst_stride, dst_ptr + r×dst_stride + width)` of a row `r < height`, the source
byte at the same position of the source range `[src_ptr + r×src_stride, ...)` of that row;
otherwise byte `i` of the original destination. -/
def MatMemcpy_2d_ref (src : Bytes) (src_ptr : Int) (dst : Bytes) (dst_ptr : Int)
    (width height src_stride dst_stride : Int) : Bytes :=
  (List.range dst.length).map fun (i : Nat) =>
    match (List.range height.toNat).find? (fun (r : Nat) =>
        decide (dst_ptr + (r : Int) * dst_stride ≤ (i : Int) ∧
          (i : Int) < dst_ptr + (r : Int) * dst_stride + width)) with
    | some r =>
      src.getD (src_ptr + (r : Int) * src_stride +
        ((i : Int) - (dst_ptr + (r : Int) * dst_stride))).toNat (dst.getD i 0)
    | none => dst.getD i 0

/-- A gray 2×2 source holding the bytes 1, 2, 3, 4, used in examples. -/
def Sample.gray2x2 : Mat := ⟨0, MatType.NGRAY, [1, 1, 2, 2], some (ramp 1 4)⟩

/-- A gray 1×1 destination on the same device whose storage is absent, used in examples. -/
def Sample.gray1x1Null : Mat := ⟨0, MatType.NGRAY, [1, 1, 1, 1], none⟩

/-- A gray source of two 2×2 batches holding the bytes 1..8, used in examples. -/
def Sample.grayTwoBatches : Mat := ⟨0, MatType.NGRAY, [2, 1, 2, 2], some (ramp 1 8)⟩

/-- A pre-allocated gray destination of two 2×2 batches holding the bytes 101..108, used in
examples. -/
def Sample.grayTwoBatchesDst : Mat := ⟨0, MatType.NGRAY, [2, 1, 2, 2], some (ramp 101 8)⟩

/-! ## Theorems -/

/-! ### `int` arithmetic -/

theorem int32_eq_self {v : Int} (h0 : -2 ^ 31 ≤ v) (h1 : v < 2 ^ 31) : int32 v = v := by
  unfold int32; omega

theorem int_add_eq {a b : Int} (h0 : 0 ≤ a + b) (h1 : a + b < 2 ^ 31) :
    int_add a b = a + b :=
  int32_eq_self (by omega) h1

theorem int_mul_eq {a b : Int} (h0 : 0 ≤ a * b) (h1 : a * b < 2 ^ 31) :
    int_mul a b = a * b :=
  int32_eq_self (by omega) h1

/-- Wrapping a factor before an `int` product does not change the product: the `int` value
of a chain of products is the wrapped mathematical product. -/
theorem int_mul_int32_left (a b : Int) : int_mul (int32 a) b = int_mul a b := by
  have h : int32 a = a - 4294967296 * ((a + 2147483648) / 4294967296) := by
    unfold int32; omega
  unfold int_mul
  rw [h, sub_mul, mul_assoc]
  generalize a * b = x
  generalize (a + 2147483648) / 4294967296 * b = m
  unfold int32; omega

/-! ### `memcpy` -/

theorem memcpy_zero (dst src : Bytes) (dp sp : Int) : memcpy dst dp src sp 0 = some dst := by
  simp [memcpy]

theorem memcpy_eq_some_iff {dst src : Bytes} {dp sp n : Int} (hn : n ≠ 0) {d : Bytes} :
    memcpy dst dp src sp n = some d ↔
      (0 < n ∧ 0 ≤ sp ∧ sp + n ≤ src.length ∧ 0 ≤ dp ∧ dp + n ≤ dst.length) ∧
      d = dst.take dp.toNat ++ ((src.drop sp.toNat).take n.toNat ++
        dst.drop (dp.toNat + n.toNat)) := by
  unfold memcpy
  rw [if_neg hn]
  split_ifs with h
  · simp [h, eq_comm]
  · simp [h]

theorem memcpy_length {dst src : Bytes} {dp sp n : Int} {d : Bytes}
    (h : memcpy dst dp src sp n = some d) : d.length = dst.length := by
  by_cases hn : n = 0
  · subst hn; rw [memcpy_zero] at h; cases h; rfl
  · obtain ⟨⟨h1, h2, h3, h4, h5⟩, rfl⟩ := (memcpy_eq_some_iff hn).1 h
    simp only [List.length_append, List.length_take, List.length_drop]
    omega

theorem memcpy_getElem? {dst src : Bytes} {dp sp n : Int} {d : Bytes}
    (h : memcpy dst dp src sp n = some d) (i : Nat) :
    d[i]? = if dp ≤ (i : Int) ∧ (i : Int) < dp + n then src[(sp + (i - dp)).toNat]?
      else dst[i]? := by
  by_cases hn : n = 0
  · subst hn; rw [memcpy_zero] at h; cases h
    rw [if_neg]; omega
  · obtain ⟨⟨h1, h2, h3, h4, h5⟩, rfl⟩ := (memcpy_eq_some_iff hn).1 h
    lift dp to ℕ using h4
    lift sp to ℕ using h2
    lift n to ℕ using h1.le
    simp only [Int.toNat_ofNat]
    by_cases hlo : i < dp
    · rw [if_neg (by omega), List.getElem?_append_left (by simp; omega),
        List.getElem?_take_of_lt hlo]
    · rw [List.getElem?_append_right (by simp; omega)]
      have hlen : (List.take dp dst).length = dp := by simp; omega
      rw [hlen]
      by_cases hhi : i < dp + n
      · rw [if_pos (by omega), List.getElem?_append_left (by simp; omega),
          List.getElem?_take_of_lt (by omega), List.getElem?_drop]
        congr 1; omega
      · rw [if_neg (by omega), List.getElem?_append_right (by simp; omega),
          List.getElem?_drop]
        congr 1
        simp only [List.length_take, List.length_drop]
        omega

theorem memcpy_isSome {dst src : Bytes} {dp sp n : Int}
    (h : n = 0 ∨ (0 < n ∧ 0 ≤ sp ∧ sp + n ≤ src.length ∧ 0 ≤ dp ∧ dp + n ≤ dst.length)) :
    ∃ d, memcpy dst dp src sp n = some d := by
  unfold memcpy
  by_cases hn : n = 0
  · simp [hn]
  · rcases h with h | h
    · exact absurd h hn
    · simp [hn, h]

/-! ### `MatMemcpy_2d` -/

theorem MatMemcpy_2d.loop_length {src : Bytes} {width ss ds : Int} :
    ∀ (k : Nat) {sp dp : Int} {dst d : Bytes},
      MatMemcpy_2d.loop src width ss ds k sp dp dst = some d → d.length = dst.length := by
  intro k
  induction k with
  | zero => intro sp dp dst d h; simp [MatMemcpy_2d.loop] at h; rw [h]
  | succ k ih =>
    intro sp dp dst d h
    simp only [MatMemcpy_2d.loop] at h
    cases hm : memcpy dst dp src sp width with
    | none => rw [hm] at h; cases h
    | some d1 =>
      rw [hm] at h
      rw [ih h, memcpy_length hm]

theorem MatMemcpy_2d.loop_frame {src : Bytes} {width ss ds : Int} :
    ∀ (k : Nat) {sp dp : Int} {dst d : Bytes},
      MatMemcpy_2d.loop src width ss ds k sp dp dst = some d →
      ∀ i : Nat, (∀ r : Nat, r < k → ¬(dp + r * ds ≤ (i : Int) ∧ (i : Int) < dp + r * ds + width)) →
        d[i]? = dst[i]? := by
  intro k
  induction k with
  | zero => intro sp dp dst d h i _; simp [MatMemcpy_2d.loop] at h; rw [h]
  | succ k ih =>
    intro sp dp dst d h i hi
    simp only [MatMemcpy_2d.loop] at h
    cases hm : memcpy dst dp src sp width with
    | none => rw [hm] at h; cases h
    | some d1 =>
      rw [hm] at h
      rw [ih h i, memcpy_getElem? hm, if_neg]
      · have := hi 0 (Nat.succ_pos k)
        simpa using this
      · intro r hr
        have := hi (r + 1) (Nat.succ_lt_succ hr)
        push_cast at this
        have e : dp + ds + (r : Int) * ds = dp + ((r : Int) + 1) * ds := by ring
        rw [e]; exact this

theorem MatMemcpy_2d.loop_row {src : Bytes} {width ss ds : Int} (hw : width ≤ ds) :
    ∀ (k : Nat) {sp dp : Int} {dst d : Bytes},
      MatMemcpy_2d.loop src width ss ds k sp dp dst = some d →
      ∀ r : Nat, r < k → ∀ j : Nat, (j : Int) < width →
        d[(dp + r * ds + j).toNat]? = src[(sp + r * ss + j).toNat]? := by
  intro k
  induction k with
  | zero => intro sp dp dst d _ r hr; exact absurd hr (Nat.not_lt_zero r)
  | succ k ih =>
    intro sp dp dst d h r hr j hj
    simp only [MatMemcpy_2d.loop] at h
    cases hm : memcpy dst dp src sp width with
    | none => rw [hm] at h; cases h
    | some d1 =>
      rw [hm] at h
      have hwn : width ≠ 0 := by omega
      obtain ⟨⟨h1, h2, h3, h4, h5⟩, -⟩ := (memcpy_eq_some_iff hwn).1 hm
      cases r with
      | zero =>
        have hds : 0 ≤ ds := by omega
        have hidx : ((dp + ((0 : Nat) : Int) * ds + j).toNat : Int) = dp + j := by
          rw [Int.toNat_of_nonneg (by push_cast; omega)]; push_cast; ring
        rw [MatMemcpy_2d.loop_frame k h, memcpy_getElem? hm, if_pos (by rw [hidx]; omega), hidx]
        · congr 2; push_cast; ring
        · intro r' _
          rw [hidx]
          have : 0 ≤ (r' : Int) * ds := mul_nonneg (Int.ofNat_nonneg r') hds
          omega
      | succ r' =>
        have := ih h r' (Nat.lt_of_succ_lt_succ hr) j hj
        have e1 : dp + ((r' + 1 : Nat) : Int) * ds + j = dp + ds + r' * ds + j := by
          push_cast; ring
        have e2 : sp + ((r' + 1 : Nat) : Int) * ss + j = sp + ss + r' * ss + j := by
          push_cast; ring
        rw [e1, e2]; exact this

theorem MatMemcpy_2d.loop_isSome {src : Bytes} {width ss ds : Int} :
    ∀ (k : Nat) {sp dp : Int} {dst : Bytes},
      (width = 0 ∨ (0 < width ∧ ∀ r : Nat, r < k →
        0 ≤ sp + r * ss ∧ sp + r * ss + width ≤ src.length ∧
        0 ≤ dp + r * ds ∧ dp + r * ds + width ≤ dst.length)) →
      ∃ d, MatMemcpy_2d.loop src width ss ds k sp dp dst = some d := by
  intro k
  induction k with
  | zero => intro sp dp dst _; exact ⟨dst, rfl⟩
  | succ k ih =>
    intro sp dp dst hb
    have h0 : ∃ d1, memcpy dst dp src sp width = some d1 := by
      apply memcpy_isSome
      rcases hb with hb | ⟨hpos, hb⟩
      · exact Or.inl hb
      · have := hb 0 (Nat.succ_pos k)
        simp only [Nat.cast_zero, zero_mul, add_zero] at this
        exact Or.inr ⟨hpos, this⟩
    obtain ⟨d1, hm⟩ := h0
    simp only [MatMemcpy_2d.loop, hm]
    apply ih
    rcases hb with hb | ⟨hpos, hb⟩
    · exact Or.inl hb
    · refine Or.inr ⟨hpos, fun r hr => ?_⟩
      have := hb (r + 1) (Nat.succ_lt_succ hr)
      push_cast at this
      rw [memcpy_length hm]
      have e1 : sp + ss + (r : Int) * ss = sp + ((r : Int) + 1) * ss := by ring
      have e2 : dp + ds + (r : Int) * ds = dp + ((r : Int) + 1) * ds := by ring
      rw [e1, e2]; exact this

/-! ### Slices and `Copy` -/

theorem Count_eq_prod (dims : DimsVector) : DimsVectorUtils.Count dims = dims.prod := by
  unfold DimsVectorUtils.Count
  rw [List.prod_eq_foldl]

theorem slice_eq_of_getElem? {a b : Bytes} {oa ob n : Int} (ha : 0 ≤ oa) (hb : 0 ≤ ob)
    (h : ∀ j : Nat, (j : Int) < n → a[(oa + j).toNat]? = b[(ob + j).toNat]?) :
    slice a oa n = slice b ob n := by
  unfold slice
  apply List.ext_getElem?
  intro j
  by_cases hj : j < n.toNat
  · rw [List.getElem?_take_of_lt hj, List.getElem?_take_of_lt hj, List.getElem?_drop,
      List.getElem?_drop]
    have := h j (by omega)
    have e1 : (oa + j).toNat = oa.toNat + j := by omega
    have e2 : (ob + j).toNat = ob.toNat + j := by omega
    rw [e1, e2] at this; exact this
  · rw [List.getElem?_take_eq_none (by omega), List.getElem?_take_eq_none (by omega)]

/-- The byte count of `Copy` wraps: for a packed 4-channel source of dims
`[65536, 4, 65536, 1]` the product `2^34` is 0 as an `int`, so `Copy` copies nothing and
returns Ok with the one-byte destination as it was. -/
theorem Copy_size_wraps :
    Copy ⟨0, MatType.N8UC4, [65536, 4, 65536, 1], some []⟩
        ⟨0, MatType.N8UC4, [65536, 4, 65536, 1], some [9]⟩ =
      some (Status.OK, ⟨0, MatType.N8UC4, [65536, 4, 65536, 1], some [9]⟩) := by
  decide

/-- The size computation of `Copy` followed by its single `memcpy`. -/
theorem Copy_eq_memcpy (src dst : Mat) (srcData dstData : Bytes)
    (hsrc : src.data = some srcData) (hdst : dst.data = some dstData)
    (hdims : src.mat_type = MatType.N8UC4 → 1 < src.dims.length) :
    Copy src dst =
      match memcpy dstData 0 srcData 0
          (int32 ((if src.mat_type = MatType.NCHW_FLOAT then 4 else 1) *
            (if src.mat_type = MatType.N8UC4 then src.dims.set 1 4 else src.dims).prod)) with
      | none => none
      | some d => some (Status.OK, { dst with data := some d }) := by
  have hmul : ∀ a b : Int, int32 (int32 a * b) = int32 (a * b) := int_mul_int32_left
  unfold Copy
  simp only [Mat.GetMatType, Mat.GetDims, Mat.GetData, hsrc, hdst, int_mul]
  by_cases hf : src.mat_type = MatType.NCHW_FLOAT
  · have h4 : src.mat_type ≠ MatType.N8UC4 := by rw [hf]; decide
    rw [if_pos hf, if_pos hf, if_neg h4]
    simp only [Count_eq_prod, hmul]
    rw [mul_comm]
  · by_cases h4 : src.mat_type = MatType.N8UC4
    · rw [if_neg hf, if_pos h4, if_pos (hdims h4), if_neg hf, if_pos h4]
      simp only [Count_eq_prod, hmul]
      rw [mul_one, one_mul]
    · rw [if_neg hf, if_neg h4, if_neg hf, if_neg h4]
      simp only [Count_eq_prod, hmul]
      rw [mul_one, one_mul]

theorem rect_bounds {x y w r W H e : Int} (hx : 0 ≤ x) (hy : 0 ≤ y) (hw : 0 ≤ w)
    (hxw : x + w ≤ W) (hr : 0 ≤ r) (hrH : y + r + 1 ≤ H) (he : 0 ≤ e) :
    0 ≤ (x + y * W) * e + r * (W * e) ∧ (x + y * W) * e + r * (W * e) + w * e ≤ W * H * e := by
  have hW : 0 ≤ W := by omega
  constructor
  · have h1 : 0 ≤ y * W := mul_nonneg hy hW
    have h2 : 0 ≤ (x + y * W) * e := mul_nonneg (by omega) he
    have h3 : 0 ≤ r * (W * e) := mul_nonneg hr (mul_nonneg hW he)
    omega
  · have e1 : (x + y * W) * e + r * (W * e) + w * e = ((y + r) * W + (x + w)) * e := by ring
    rw [e1]
    apply mul_le_mul_of_nonneg_right _ he
    have h1 : (y + r) * W + (x + w) ≤ (y + r + 1) * W := by
      have : (y + r + 1) * W = (y + r) * W + W := by ring
      omega
    have h2 : (y + r + 1) * W ≤ H * W := mul_le_mul_of_nonneg_right hrH hW
    have h3 : H * W = W * H := mul_comm _ _
    omega

theorem Mat.allocateIfNull_device (m : Mat) : m.allocateIfNull.device_type = m.device_type := by
  unfold Mat.allocateIfNull; cases h : m.GetData <;> rfl

theorem Mat.allocateIfNull_mat_type (m : Mat) : m.allocateIfNull.mat_type = m.mat_type := by
  unfold Mat.allocateIfNull; cases h : m.GetData <;> rfl

theorem Mat.allocateIfNull_dims (m : Mat) : m.allocateIfNull.dims = m.dims := by
  unfold Mat.allocateIfNull; cases h : m.GetData <;> rfl

theorem Mat.allocateIfNull_of_some {m : Mat} {b : Bytes} (h : m.data = some b) :
    m.allocateIfNull = m := by
  unfold Mat.allocateIfNull Mat.GetData; rw [h]

theorem Mat.allocateIfNull_data_isSome (m : Mat) : ∃ b, m.allocateIfNull.data = some b := by
  unfold Mat.allocateIfNull
  cases h : m.GetData with
  | none => exact ⟨_, rfl⟩
  | some b => exact ⟨b, h⟩

/-- A strided copy of no rows touches nothing, whatever its pointers and widths. -/
theorem MatMemcpy_2d_no_rows {height : Int} (h : height ≤ 0) (src : Bytes) (sp : Int)
    (dst : Bytes) (dp width ss ds : Int) :
    MatMemcpy_2d src sp dst dp width height ss ds = some dst := by
  unfold MatMemcpy_2d
  rw [Int.toNat_eq_zero.2 h]; rfl

/-- The `int` values of the offset, row width and stride of a non-empty crop region inside
a plane whose byte count fits in an `int` are the mathematical ones. -/
theorem packed_args_fit {x y w h W H e : Int} (he : 1 ≤ e) (hx : 0 ≤ x) (hy : 0 ≤ y)
    (hw : 0 ≤ w) (hxw : x + w ≤ W) (hyh : y + h ≤ H) (hpos : 0 < h)
    (hfit : W * H * e < 2 ^ 31) :
    int_mul y W = y * W ∧ int_add x (y * W) = x + y * W ∧
      int_mul (x + y * W) e = (x + y * W) * e ∧ int_mul w e = w * e ∧
      int_mul W e = W * e ∧ 0 ≤ W * H * e ∧ W * e ≤ W * H * e := by
  have hW : 0 ≤ W := by omega
  have hyW : 0 ≤ y * W := mul_nonneg hy hW
  have hb := @rect_bounds x y w 0 W H e hx hy hw hxw (le_refl _) (by omega) (by omega)
  simp only [zero_mul, add_zero] at hb
  have hwe : 0 ≤ w * e := mul_nonneg hw (by omega)
  have hxy : x + y * W ≤ (x + y * W) * e := by nlinarith
  have hWe : 0 ≤ W * e := mul_nonneg hW (by omega)
  have hWH : W * e ≤ W * H * e := by
    have : W * e * 1 ≤ W * e * H := mul_le_mul_of_nonneg_left (by omega) hWe
    have e1 : W * e * H = W * H * e := by ring
    omega
  have hwW : w * e ≤ W * e := mul_le_mul_of_nonneg_right (by omega) (by omega)
  exact ⟨int_mul_eq hyW (by omega), int_add_eq (by omega) (by omega),
    int_mul_eq hb.1 (by omega), int_mul_eq hwe (by omega), int_mul_eq hWe (by omega),
    by omega, hWH⟩

theorem tmod_two_ne_zero_iff_odd (x : Int) : x.tmod 2 ≠ 0 ↔ Odd x := by
  rw [Ne, ← Int.dvd_iff_tmod_eq_zero, ← even_iff_two_dvd, Int.not_even_iff_odd]

/-- C3. For a source in a 4:2:0 chroma-subsampled format (NV12 or NV21) with storage present
and a destination of the same device, `Crop` fails with InvalidCropRegionError whenever at
least one of `top_left_x`, `top_left_y`, `width`, `height` is odd, negative odd values
included; the destination is the one left by the allocation step. -/
theorem Crop_nv_odd_fails (src dst : Mat) (param : CropParam) (srcData : Bytes)
    (hfmt : src.mat_type = MatType.NNV12 ∨ src.mat_type = MatType.NNV21)
    (hsrc : src.data = some srcData)
    (hdev : dst.device_type = src.device_type)
    (hodd : Odd param.top_left_x ∨ Odd param.top_left_y ∨ Odd param.width ∨
      Odd param.height) :
    ∃ s, Crop src dst param = some (s, dst.allocateIfNull) ∧ s.IsInvalidCropRegionError := by
  refine ⟨⟨StatusCode.TNNERR_PARAM_ERR, "corp param can not be odd"⟩, ?_, rfl⟩
  have hdev' : ¬ src.GetDeviceType ≠ dst.GetDeviceType := by
    simp [Mat.GetDeviceType, hdev]
  have hcond : param.top_left_x.tmod 2 ≠ 0 ∨ param.top_left_y.tmod 2 ≠ 0 ∨
      param.width.tmod 2 ≠ 0 ∨ param.height.tmod 2 ≠ 0 := by
    simpa only [tmod_two_ne_zero_iff_odd] using hodd
  unfold Crop
  simp only [Mat.GetData, hsrc, if_neg hdev', Mat.GetMatType]
  rcases hfmt with hf | hf
  · simp only [hf, if_pos hcond]
    simp
  · simp only [hf, if_pos hcond]
    simp

/-- Witness of C3: `Crop` with `topLeft=(1,0)` on a 4×4 NV12 buffer, and with the negative
odd `topLeft=(-1,0)` on a 4×4 NV21 buffer. -/
theorem Crop_nv_odd_fails_witness :
    (∃ s, Crop ⟨0, MatType.NNV12, [1, 3, 4, 4], some (ramp 0 48)⟩
        ⟨0, MatType.NNV12, [1, 3, 2, 2], some (ramp 100 12)⟩ ⟨1, 0, 2, 2⟩ =
        some (s, (⟨0, MatType.NNV12, [1, 3, 2, 2], some (ramp 100 12)⟩ : Mat).allocateIfNull) ∧
      s.IsInvalidCropRegionError) ∧
    (∃ s, Crop ⟨0, MatType.NNV21, [1, 3, 4, 4], some (ramp 0 48)⟩
        ⟨0, MatType.NNV21, [1, 3, 2, 2], some (ramp 100 12)⟩ ⟨-1, 0, 2, 2⟩ =
        some (s, (⟨0, MatType.NNV21, [1, 3, 2, 2], some (ramp 100 12)⟩ : Mat).allocateIfNull) ∧
      s.IsInvalidCropRegionError) :=
  ⟨Crop_nv_odd_fails ⟨0, MatType.NNV12, [1, 3, 4, 4], some (ramp 0 48)⟩
      ⟨0, MatType.NNV12, [1, 3, 2, 2], some (ramp 100 12)⟩ ⟨1, 0, 2, 2⟩ (ramp 0 48)
      (Or.inl rfl) rfl rfl (Or.inl ⟨0, by decide⟩),
    Crop_nv_odd_fails ⟨0, MatType.NNV21, [1, 3, 4, 4], some (ramp 0 48)⟩
      ⟨0, MatType.NNV21, [1, 3, 2, 2], some (ramp 100 12)⟩ ⟨-1, 0, 2, 2⟩ (ramp 0 48)
      (Or.inr rfl) rfl rfl (Or.inl ⟨-1, by decide⟩)⟩

/-- C5 (the code at the failing input). On a 4×4 NV12 source holding the bytes `0..23`,
`Crop(topLeft=(2,2), width=2, height=2)` returns Ok, but the luma copy starts at
`x + y×param.width = 6` instead of `x + y×W = 10`: the destination luma rows are the source
bytes 6-7 and 10-11 (source rows 1 and 2), not the bytes 10-11 and 14-15 of the source luma
rows 2 and 3, columns 2-3. -/
theorem Crop_nv_luma_offset_uses_crop_width :
    Crop ⟨0, MatType.NNV12, [1, 1, 4, 4], some (ramp 0 24)⟩
        ⟨0, MatType.NNV12, [1, 1, 2, 2], some (ramp 100 6)⟩ ⟨2, 2, 2, 2⟩ =
      some (Status.OK, ⟨0, MatType.NNV12, [1, 1, 2, 2], some [6, 7, 10, 11, 22, 23]⟩) ∧
    slice [6, 7, 10, 11, 22, 23] (0 * 2) 2 = slice (ramp 0 24) (2 + 2 * 2 + 0 * 4) 2 ∧
    slice [6, 7, 10, 11, 22, 23] (1 * 2) 2 = slice (ramp 0 24) (2 + 2 * 2 + 1 * 4) 2 ∧
    slice [6, 7, 10, 11, 22, 23] (0 * 2) 2 ≠ slice (ramp 0 24) (2 + (2 + 0) * 4) 2 ∧
    slice [6, 7, 10, 11, 22, 23] (1 * 2) 2 ≠ slice (ramp 0 24) (2 + (2 + 1) * 4) 2 ∧
    slice (ramp 0 24) (2 + (2 + 0) * 4) 2 = [10, 11] ∧
    slice (ramp 0 24) (2 + (2 + 1) * 4) 2 = [14, 15] := by
  decide

theorem memcpy_neg {dst src : Bytes} {dp sp n : Int} (hn : n < 0) :
    memcpy dst dp src sp n = none := by
  unfold memcpy
  rw [if_neg (by omega), if_neg (by omega)]

/-- Two adjacent copies between the same offsets of both storages are one copy. -/
theorem memcpy_adjacent (dst src : Bytes) (p n m : Int) (hn : 0 ≤ n) (hm : 0 ≤ m) :
    (match memcpy dst p src p n with
      | none => none
      | some d1 => memcpy d1 (p + n) src (p + n) m) = memcpy dst p src p (n + m) := by
  by_cases hn0 : n = 0
  · subst hn0; simp [memcpy_zero]
  by_cases hm0 : m = 0
  · subst hm0
    cases h : memcpy dst p src p n with
    | none => simp [h]
    | some d1 => simp [memcpy_zero, h]
  cases h1 : memcpy dst p src p n with
  | none =>
    simp only
    symm
    unfold memcpy at h1 ⊢
    rw [if_neg hn0] at h1
    rw [if_neg (by omega)]
    split_ifs at h1 with hb
    rw [if_neg]
    intro hc
    exact hb ⟨by omega, hc.2.1, by omega, hc.2.2.2.1, by omega⟩
  | some d1 =>
    simp only
    have hlen := memcpy_length h1
    obtain ⟨⟨a1, a2, a3, a4, a5⟩, -⟩ := (memcpy_eq_some_iff hn0).1 h1
    by_cases hb : p + n + m ≤ src.length ∧ p + n + m ≤ dst.length
    · obtain ⟨d2, h2⟩ : ∃ d2, memcpy d1 (p + n) src (p + n) m = some d2 :=
        memcpy_isSome (Or.inr ⟨by omega, by omega, by omega, by omega, by omega⟩)
      obtain ⟨d3, h3⟩ : ∃ d3, memcpy dst p src p (n + m) = some d3 :=
        memcpy_isSome (Or.inr ⟨by omega, by omega, by omega, by omega, by omega⟩)
      rw [h2, h3]
      congr 1
      apply List.ext_getElem?
      intro i
      rw [memcpy_getElem? h2, memcpy_getElem? h3, memcpy_getElem? h1]
      by_cases c1 : (i : Int) < p
      · rw [if_neg (by omega), if_neg (by omega), if_neg (by omega)]
      · by_cases c2 : (i : Int) < p + n
        · rw [if_neg (by omega), if_pos (by omega), if_pos (by omega)]
        · by_cases c3 : (i : Int) < p + n + m
          · rw [if_pos (by omega), if_pos (by omega)]
            congr 1; omega
          · rw [if_neg (by omega), if_neg (by omega), if_neg (by omega)]
    · unfold memcpy
      rw [if_neg hm0, if_neg (by omega), if_neg, if_neg]
      · intro hc; apply hb; omega
      · intro hc; apply hb; omega

/-- Rows that are as wide as both strides, copied between equal offsets, form one block. -/
theorem MatMemcpy_2d.loop_contiguous (src : Bytes) (n : Int) :
    ∀ (k : Nat) (p : Int) (dst : Bytes),
      MatMemcpy_2d.loop src n n n k p p dst = memcpy dst p src p (k * n) := by
  intro k
  induction k with
  | zero => intro p dst; simp [MatMemcpy_2d.loop, memcpy_zero]
  | succ k ih =>
    intro p dst
    by_cases hn : n < 0
    · have hk : ((k + 1 : Nat) : Int) * n < 0 :=
        mul_neg_of_pos_of_neg (by push_cast; omega) hn
      simp only [MatMemcpy_2d.loop, memcpy_neg hn, memcpy_neg hk]
    · have hn0 : 0 ≤ n := by omega
      have e : ((k + 1 : Nat) : Int) * n = n + k * n := by push_cast; ring
      rw [e, ← memcpy_adjacent dst src p n (k * n) hn0 (mul_nonneg (Int.ofNat_nonneg k) hn0)]
      simp only [MatMemcpy_2d.loop]
      cases h1 : memcpy dst p src p n with
      | none => rfl
      | some d1 => exact ih (p + n) d1

/-- The `int` plane offset `batch * width * height * channel` is the mathematical product
when that product fits in an `int`. -/
theorem plane_offset_fit {b W H e : Int} (hb : 0 ≤ b) (hW : 0 ≤ W) (hH : 0 ≤ H) (he : 1 ≤ e)
    (hfit : b * (W * H * e) < 2 ^ 31) :
    int_mul (int_mul (int_mul b W) H) e = b * (W * H * e) := by
  by_cases hH0 : H = 0
  · subst hH0
    simp [int_mul, int32]
  · have h1 : 0 ≤ b * W := mul_nonneg hb hW
    have h2 : b * W * 1 ≤ b * W * H := mul_le_mul_of_nonneg_left (by omega) h1
    have h3 : 0 ≤ b * W * H := mul_nonneg h1 hH
    have h4 : b * W * H * 1 ≤ b * W * H * e := mul_le_mul_of_nonneg_left he h3
    have h5 : b * W * H * e = b * (W * H * e) := by ring
    rw [int_mul_eq h1 (by omega), int_mul_eq h3 (by omega), int_mul_eq (by omega) (by omega), h5]

/-- The `int` offset of the region corner `(0, 0)` is 0. -/
theorem corner_offset_zero (W e : Int) : int_mul (int_add 0 (int_mul 0 W)) e = 0 := by
  simp [int_mul, int_add, int32]

/-- The batch loop of the 4-channel branch of `Crop` copies nothing when the region has no
rows. -/
theorem Crop.loop_no_rows (src dst : Mat) (srcData : Bytes) (param : CropParam) (channel : Int)
    (h : param.height ≤ 0) :
    ∀ (k : Nat) (b : Int) (dstData : Bytes),
      Crop.loop src dst srcData param channel k b dstData = some dstData := by
  intro k
  induction k with
  | zero => intro b dstData; rfl
  | succ k ih =>
    intro b dstData
    simp only [Crop.loop, MatMemcpy_2d_no_rows h, ih]

/-- The batch loop of the 4-channel branch of `Crop` on the full region of a same-shaped
destination copies one block, when the byte offsets of the batches it visits fit in an
`int`. -/
theorem Crop.loop_full_region (src dst : Mat) (srcData : Bytes) (W H : Int) (hW : 0 ≤ W)
    (hH : 0 < H) (hsW : src.GetWidth = W) (hsH : src.GetHeight = H)
    (hdW : dst.GetWidth = W) (hdH : dst.GetHeight = H) :
    ∀ (k : Nat) (b : Int) (dstData : Bytes), 0 ≤ b → (b + k) * (W * H * 4) < 2 ^ 31 →
      Crop.loop src dst srcData ⟨0, 0, W, H⟩ 4 k b dstData =
        memcpy dstData (b * (W * H * 4)) srcData (b * (W * H * 4)) (k * (W * H * 4)) := by
  have hn0 : 0 ≤ W * H * 4 := by
    have := mul_nonneg hW (le_of_lt hH)
    omega
  have hW4 : W * 1 ≤ W * H := mul_le_mul_of_nonneg_left (by omega) hW
  have hrow : ∀ (b : Int) (d : Bytes),
      MatMemcpy_2d srcData (b * (W * H * 4) + 0) d (b * (W * H * 4) + 0) (W * 4) H
        (W * 4) (W * 4) = memcpy d (b * (W * H * 4)) srcData (b * (W * H * 4)) (W * H * 4) := by
    intro b d
    have e3 : ((H.toNat : Nat) : Int) * (W * 4) = W * H * 4 := by
      rw [Int.toNat_of_nonneg (le_of_lt hH)]; ring
    rw [add_zero]
    unfold MatMemcpy_2d
    rw [MatMemcpy_2d.loop_contiguous, e3]
  intro k
  induction k with
  | zero => intro b dstData _ _; simp [Crop.loop, memcpy_zero]
  | succ k ih =>
    intro b dstData hb hfit
    have hk0 : 0 ≤ (k : Int) * (W * H * 4) := mul_nonneg (Int.ofNat_nonneg k) hn0
    have hbn0 : 0 ≤ b * (W * H * 4) := mul_nonneg hb hn0
    have e : (b + ((k + 1 : Nat) : Int)) * (W * H * 4) =
        b * (W * H * 4) + W * H * 4 + k * (W * H * 4) := by push_cast; ring
    have e' : (b + 1 + (k : Int)) * (W * H * 4) =
        b * (W * H * 4) + W * H * 4 + k * (W * H * 4) := by ring
    have hplane : int_mul (int_mul (int_mul b W) H) 4 = b * (W * H * 4) :=
      plane_offset_fit hb hW (le_of_lt hH) (by decide) (by omega)
    have hstride : int_mul W 4 = W * 4 := int_mul_eq (by omega) (by omega)
    simp only [Crop.loop, hsW, hsH, hdW, hdH, hplane, hstride, corner_offset_zero, hrow]
    have e2 : ((k + 1 : Nat) : Int) * (W * H * 4) = W * H * 4 + k * (W * H * 4) := by
      push_cast; ring
    rw [e2, ← memcpy_adjacent dstData srcData (b * (W * H * 4)) (W * H * 4)
      (k * (W * H * 4)) hn0 hk0]
    cases h1 : memcpy dstData (b * (W * H * 4)) srcData (b * (W * H * 4)) (W * H * 4) with
    | none => rfl
    | some d1 =>
      simp only
      rw [ih (b + 1) d1 (by omega) (by omega)]
      congr 1 <;> ring

/-- C6 (as amended). For a packed source with dims `[B, C, H, W]`, all of `B`, `H`, `W`
non-negative, storage present, the byte count that `Copy` computes fitting in an `int`, and
a same-shaped, same-device, pre-allocated destination: `Crop` with the region
`(0, 0, srcWidth, srcHeight)` returns exactly what `Copy(src, dst)` returns from the same
destination (same status, same destination bytes and metadata) when the format is packed
4-channel (every batch count, every declared channel count), or gray with `B × C = 1`, or
3-channel with `B × C = 3`; and both return Ok when the two storages hold the copied
bytes. -/
theorem Crop_full_region_eq_Copy (src dst : Mat) (srcData dstData : Bytes) (B C H W : Int)
    (hfmt : src.mat_type = MatType.N8UC4 ∨ (src.mat_type = MatType.NGRAY ∧ B * C = 1) ∨
      (src.mat_type = MatType.N8UC3 ∧ B * C = 3))
    (hdims : src.dims = [B, C, H, W]) (hB : 0 ≤ B) (hH : 0 ≤ H) (hW : 0 ≤ W)
    (hfit : (if src.mat_type = MatType.N8UC4 then src.dims.set 1 4 else src.dims).prod
      < 2 ^ 31)
    (hsrc : src.data = some srcData) (hdst : dst.data = some dstData)
    (hshape : dst.dims = src.dims) (hdev : dst.device_type = src.device_type) :
    Crop src dst ⟨0, 0, src.GetWidth, src.GetHeight⟩ = Copy src dst ∧
    ((if src.mat_type = MatType.N8UC4 then src.dims.set 1 4 else src.dims).prod
        ≤ srcData.length →
      (if src.mat_type = MatType.N8UC4 then src.dims.set 1 4 else src.dims).prod
        ≤ dstData.length →
      ∃ d, Copy src dst = some (Status.OK, { dst with data := some d }) ∧ Status.OK.IsOk) := by
  have hsW : src.GetWidth = W := by simp [Mat.GetWidth, Mat.GetDim, hdims]
  have hsH : src.GetHeight = H := by simp [Mat.GetHeight, Mat.GetDim, hdims]
  have hsB : src.GetBatch = B := by simp [Mat.GetBatch, Mat.GetDim, hdims]
  have hdW : dst.GetWidth = W := by simp [Mat.GetWidth, Mat.GetDim, hshape, hdims]
  have hdH : dst.GetHeight = H := by simp [Mat.GetHeight, Mat.GetDim, hshape, hdims]
  have hdev' : ¬ src.GetDeviceType ≠ dst.GetDeviceType := by
    simp [Mat.GetDeviceType, hdev]
  have hlen : src.mat_type = MatType.N8UC4 → 1 < src.dims.length := by
    intro _; rw [hdims]; simp
  have hcopy := Copy_eq_memcpy src dst srcData dstData hsrc hdst hlen
  have hnf : src.mat_type ≠ MatType.NCHW_FLOAT := by
    rcases hfmt with h | ⟨h, -⟩ | ⟨h, -⟩ <;> rw [h] <;> decide
  rw [if_neg hnf, one_mul] at hcopy
  have hWH : 0 ≤ H * W := mul_nonneg hH hW
  have hprod : [B, C, H, W].prod = B * C * (H * W) := by
    simp only [List.prod_cons, List.prod_nil]; ring
  have hprod4 : ([B, C, H, W].set 1 4).prod = B * (W * H * 4) := by
    simp only [List.set, List.prod_cons, List.prod_nil]; ring
  have hsz : ∃ sz : Int, 0 ≤ sz ∧
      (if src.mat_type = MatType.N8UC4 then src.dims.set 1 4 else src.dims).prod = sz ∧
      Crop src dst ⟨0, 0, src.GetWidth, src.GetHeight⟩ =
        match memcpy dstData 0 srcData 0 sz with
        | none => none
        | some d => some (Status.OK, { dst with data := some d }) := by
    rcases hfmt with hf | ⟨hf, hbc⟩ | ⟨hf, hbc⟩
    · rw [if_pos hf, hdims, hprod4] at hfit
      refine ⟨B * (W * H * 4), mul_nonneg hB (by linarith), ?_, ?_⟩
      · rw [if_pos hf, hdims, hprod4]
      · unfold Crop
        simp only [Mat.GetData, hsrc, if_neg hdev', Mat.GetMatType,
          Mat.allocateIfNull_of_some hdst, hdst, hsW, hsH, hsB, hf]
        by_cases hH0 : H = 0
        · subst hH0
          rw [Crop.loop_no_rows src dst srcData ⟨0, 0, W, 0⟩ 4 (le_refl _)]
          simp [memcpy_zero]
        · rw [Crop.loop_full_region src dst srcData W H hW (by omega) hsW hsH hdW hdH
            B.toNat 0 dstData (le_refl _)
            (by rw [Int.toNat_of_nonneg hB, zero_add]; exact hfit),
            Int.toNat_of_nonneg hB]
          simp
    · rw [if_neg (by rw [hf]; decide), hdims, hprod, hbc, one_mul] at hfit
      refine ⟨H * W, hWH, ?_, ?_⟩
      · rw [if_neg (by rw [hf]; decide), hdims, hprod, hbc, one_mul]
      · have hcorner : int_add 0 (int_mul 0 W) = 0 := by simp [int_mul, int_add, int32]
        have hrow : MatMemcpy_2d srcData 0 dstData 0 W H W W =
            memcpy dstData 0 srcData 0 (H * W) := by
          unfold MatMemcpy_2d
          rw [MatMemcpy_2d.loop_contiguous, Int.toNat_of_nonneg hH]
        unfold Crop
        simp only [Mat.GetData, hsrc, if_neg hdev', Mat.GetMatType,
          Mat.allocateIfNull_of_some hdst, hdst, hsW, hsH, hdW, hf, hcorner, hrow]
        simp
    · have hsz3 : B * C * (H * W) = H * (W * 3) := by rw [hbc]; ring
      rw [if_neg (by rw [hf]; decide), hdims, hprod, hsz3] at hfit
      refine ⟨H * (W * 3), by linarith, ?_, ?_⟩
      · rw [if_neg (by rw [hf]; decide), hdims, hprod, hsz3]
      · unfold Crop
        simp only [Mat.GetData, hsrc, if_neg hdev', Mat.GetMatType,
          Mat.allocateIfNull_of_some hdst, hdst, hsW, hsH, hdW, hf, corner_offset_zero]
        by_cases hH0 : H = 0
        · subst hH0
          simp [MatMemcpy_2d_no_rows, memcpy_zero]
        · have hW3 : W * 3 * 1 ≤ W * 3 * H := mul_le_mul_of_nonneg_left (by omega) (by omega)
          have hW3' : W * 3 * H = H * (W * 3) := by ring
          have hstride : int_mul W 3 = W * 3 := int_mul_eq (by omega) (by omega)
          have hrow : MatMemcpy_2d srcData 0 dstData 0 (W * 3) H (W * 3) (W * 3) =
              memcpy dstData 0 srcData 0 (H * (W * 3)) := by
            unfold MatMemcpy_2d
            rw [MatMemcpy_2d.loop_contiguous, Int.toNat_of_nonneg hH]
          simp only [hstride, hrow]
          simp
  obtain ⟨sz, hsz0, hszeq, hcrop⟩ := hsz
  rw [hszeq] at hcopy hfit ⊢
  rw [int32_eq_self (by omega) hfit] at hcopy
  refine ⟨by rw [hcrop, hcopy], fun hs hd => ?_⟩
  obtain ⟨d, hm⟩ : ∃ d, memcpy dstData 0 srcData 0 sz = some d := by
    apply memcpy_isSome
    by_cases hz : sz = 0
    · exact Or.inl hz
    · exact Or.inr ⟨by omega, le_refl _, by omega, le_refl _, by omega⟩
  exact ⟨d, by rw [hcopy, hm], rfl⟩

/-- Witness of C6 (as amended): a packed 4-channel source of two 1×1 batches that declares
3 channels; `Crop` on the full region and `Copy` both copy all 8 bytes. -/
theorem Crop_full_region_eq_Copy_witness :
    (Crop (⟨0, MatType.N8UC4, [2, 3, 1, 1], some (ramp 1 8)⟩ : Mat) (⟨0, MatType.N8UC4, [2, 3, 1, 1], some (ramp 100 8)⟩ : Mat)
        ⟨0, 0, (⟨0, MatType.N8UC4, [2, 3, 1, 1], some (ramp 1 8)⟩ : Mat).GetWidth,
          (⟨0, MatType.N8UC4, [2, 3, 1, 1], some (ramp 1 8)⟩ : Mat).GetHeight⟩ =
        Copy (⟨0, MatType.N8UC4, [2, 3, 1, 1], some (ramp 1 8)⟩ : Mat) (⟨0, MatType.N8UC4, [2, 3, 1, 1], some (ramp 100 8)⟩ : Mat) ∧
      ((if (⟨0, MatType.N8UC4, [2, 3, 1, 1], some (ramp 1 8)⟩ : Mat).mat_type = MatType.N8UC4 then
            (⟨0, MatType.N8UC4, [2, 3, 1, 1], some (ramp 1 8)⟩ : Mat).dims.set 1 4
          else (⟨0, MatType.N8UC4, [2, 3, 1, 1], some (ramp 1 8)⟩ : Mat).dims).prod ≤ (ramp 1 8).length →
        (if (⟨0, MatType.N8UC4, [2, 3, 1, 1], some (ramp 1 8)⟩ : Mat).mat_type = MatType.N8UC4 then
            (⟨0, MatType.N8UC4, [2, 3, 1, 1], some (ramp 1 8)⟩ : Mat).dims.set 1 4
          else (⟨0, MatType.N8UC4, [2, 3, 1, 1], some (ramp 1 8)⟩ : Mat).dims).prod ≤ (ramp 100 8).length →
        ∃ d, Copy (⟨0, MatType.N8UC4, [2, 3, 1, 1], some (ramp 1 8)⟩ : Mat) (⟨0, MatType.N8UC4, [2, 3, 1, 1], some (ramp 100 8)⟩ : Mat) =
            some (Status.OK, { (⟨0, MatType.N8UC4, [2, 3, 1, 1], some (ramp 100 8)⟩ : Mat) with data := some d }) ∧
          Status.OK.IsOk)) ∧
    Crop (⟨0, MatType.N8UC4, [2, 3, 1, 1], some (ramp 1 8)⟩ : Mat) (⟨0, MatType.N8UC4, [2, 3, 1, 1], some (ramp 100 8)⟩ : Mat) ⟨0, 0, 1, 1⟩ =
      some (Status.OK, ⟨0, MatType.N8UC4, [2, 3, 1, 1], some (ramp 1 8)⟩) :=
  ⟨Crop_full_region_eq_Copy (⟨0, MatType.N8UC4, [2, 3, 1, 1], some (ramp 1 8)⟩ : Mat) (⟨0, MatType.N8UC4, [2, 3, 1, 1], some (ramp 100 8)⟩ : Mat) (ramp 1 8) (ramp 100 8) 2 3 1 1
      (Or.inl rfl) rfl (by decide) (by decide) (by decide) (by decide) rfl rfl rfl rfl,
    by decide⟩

/-- C6 (counterexample). Same-shaped, same-device, pre-allocated pairs on which `Crop`
with the full region and `Copy` both return Ok and leave different destination bytes: an
NV12 and an NV21 source of dims `[1, 3, 2, 2]` (`Crop` copies the 4 luma bytes and the one
chroma row, `Copy` all 12 bytes), a gray source of two 2×2 batches and a 3-channel source of
two 1×1 batches (`Crop` copies batch 0 only). -/
theorem Crop_full_region_ne_Copy :
    (Crop ⟨0, MatType.NNV12, [1, 3, 2, 2], some (ramp 1 12)⟩
        ⟨0, MatType.NNV12, [1, 3, 2, 2], some (ramp 101 12)⟩ ⟨0, 0, 2, 2⟩ =
        some (Status.OK, ⟨0, MatType.NNV12, [1, 3, 2, 2],
          some [1, 2, 3, 4, 5, 6, 107, 108, 109, 110, 111, 112]⟩) ∧
      Copy ⟨0, MatType.NNV12, [1, 3, 2, 2], some (ramp 1 12)⟩
        ⟨0, MatType.NNV12, [1, 3, 2, 2], some (ramp 101 12)⟩ =
        some (Status.OK, ⟨0, MatType.NNV12, [1, 3, 2, 2],
          some [1, 2, 3, 4, 5, 6, 7, 8, 9, 10, 11, 12]⟩)) ∧
    (Crop ⟨0, MatType.NNV21, [1, 3, 2, 2], some (ramp 1 12)⟩
        ⟨0, MatType.NNV21, [1, 3, 2, 2], some (ramp 101 12)⟩ ⟨0, 0, 2, 2⟩ =
        some (Status.OK, ⟨0, MatType.NNV21, [1, 3, 2, 2],
          some [1, 2, 3, 4, 5, 6, 107, 108, 109, 110, 111, 112]⟩) ∧
      Copy ⟨0, MatType.NNV21, [1, 3, 2, 2], some (ramp 1 12)⟩
        ⟨0, MatType.NNV21, [1, 3, 2, 2], some (ramp 101 12)⟩ =
        some (Status.OK, ⟨0, MatType.NNV21, [1, 3, 2, 2],
          some [1, 2, 3, 4, 5, 6, 7, 8, 9, 10, 11, 12]⟩)) ∧
    (Crop ⟨0, MatType.NGRAY, [2, 1, 2, 2], some (ramp 1 8)⟩
        ⟨0, MatType.NGRAY, [2, 1, 2, 2], some (ramp 101 8)⟩ ⟨0, 0, 2, 2⟩ =
        some (Status.OK, ⟨0, MatType.NGRAY, [2, 1, 2, 2],
          some [1, 2, 3, 4, 105, 106, 107, 108]⟩) ∧
      Copy ⟨0, MatType.NGRAY, [2, 1, 2, 2], some (ramp 1 8)⟩
        ⟨0, MatType.NGRAY, [2, 1, 2, 2], some (ramp 101 8)⟩ =
        some (Status.OK, ⟨0, MatType.NGRAY, [2, 1, 2, 2],
          some [1, 2, 3, 4, 5, 6, 7, 8]⟩)) ∧
    (Crop ⟨0, MatType.N8UC3, [2, 3, 1, 1], some (ramp 1 6)⟩
        ⟨0, MatType.N8UC3, [2, 3, 1, 1], some (ramp 101 6)⟩ ⟨0, 0, 1, 1⟩ =
        some (Status.OK, ⟨0, MatType.N8UC3, [2, 3, 1, 1],
          some [1, 2, 3, 104, 105, 106]⟩) ∧
      Copy ⟨0, MatType.N8UC3, [2, 3, 1, 1], some (ramp 1 6)⟩
        ⟨0, MatType.N8UC3, [2, 3, 1, 1], some (ramp 101 6)⟩ =
        some (Status.OK, ⟨0, MatType.N8UC3, [2, 3, 1, 1],
          some [1, 2, 3, 4, 5, 6]⟩)) ∧
    Crop ⟨0, MatType.NNV12, [1, 3, 2, 2], some (ramp 1 12)⟩
        ⟨0, MatType.NNV12, [1, 3, 2, 2], some (ramp 101 12)⟩
        ⟨0, 0, (⟨0, MatType.NNV12, [1, 3, 2, 2], some (ramp 1 12)⟩ : Mat).GetWidth,
          (⟨0, MatType.NNV12, [1, 3, 2, 2], some (ramp 1 12)⟩ : Mat).GetHeight⟩ ≠
      Copy ⟨0, MatType.NNV12, [1, 3, 2, 2], some (ramp 1 12)⟩
        ⟨0, MatType.NNV12, [1, 3, 2, 2], some (ramp 101 12)⟩ := by
  decide

/-- C7. For every pixel format and every parameter record, each of `Resize`, `Crop` and
`WarpAffine` called with a source whose storage is present and whose device tag differs
from the destination's fails with DeviceMismatchError (and leaves the destination as it
was). -/
theorem device_mismatch_fails {F : Type} (K : Kernels F) (src dst : Mat) (srcData : Bytes)
    (rp : ResizeParam) (cp : CropParam) (wp : WarpAffineParam F)
    (hsrc : src.data = some srcData) (hdev : src.device_type ≠ dst.device_type) :
    (∃ s, Resize K src dst rp = some (s, dst) ∧ s.IsDeviceMismatchError) ∧
    (∃ s, Crop src dst cp = some (s, dst) ∧ s.IsDeviceMismatchError) ∧
    (∃ s, WarpAffine K src dst wp = some (s, dst) ∧ s.IsDeviceMismatchError) := by
  have hdev' : src.GetDeviceType ≠ dst.GetDeviceType := hdev
  refine ⟨⟨⟨StatusCode.TNNERR_PARAM_ERR, "src and dst mat type must be same"⟩, ?_, rfl⟩,
    ⟨⟨StatusCode.TNNERR_PARAM_ERR, "src and dst mat type must be same"⟩, ?_, rfl⟩,
    ⟨⟨StatusCode.TNNERR_PARAM_ERR, "src and dst mat type must be same"⟩, ?_, rfl⟩⟩
  · unfold Resize
    simp only [Mat.GetData, hsrc, if_pos hdev']
  · unfold Crop
    simp only [Mat.GetData, hsrc, if_pos hdev']
  · unfold WarpAffine
    simp only [Mat.GetData, hsrc, if_pos hdev']

/-- Witness of C7: a gray source on device 0 and a destination on device 1. -/
theorem device_mismatch_fails_witness :
    (∃ s, Resize Kernels.writeNothing ⟨0, MatType.NGRAY, [1, 1, 2, 2], some (ramp 0 4)⟩
        ⟨1, MatType.NGRAY, [1, 1, 2, 2], none⟩ ⟨InterpType.INTERP_TYPE_LINEAR⟩ =
        some (s, ⟨1, MatType.NGRAY, [1, 1, 2, 2], none⟩) ∧ s.IsDeviceMismatchError) ∧
    (∃ s, Crop ⟨0, MatType.NGRAY, [1, 1, 2, 2], some (ramp 0 4)⟩
        ⟨1, MatType.NGRAY, [1, 1, 2, 2], none⟩ ⟨0, 0, 2, 2⟩ =
        some (s, ⟨1, MatType.NGRAY, [1, 1, 2, 2], none⟩) ∧ s.IsDeviceMismatchError) ∧
    (∃ s, WarpAffine Kernels.writeNothing ⟨0, MatType.NGRAY, [1, 1, 2, 2], some (ramp 0 4)⟩
        ⟨1, MatType.NGRAY, [1, 1, 2, 2], none⟩
        ⟨[], InterpType.INTERP_TYPE_LINEAR, BorderType.BORDER_TYPE_CONSTANT, ()⟩ =
        some (s, ⟨1, MatType.NGRAY, [1, 1, 2, 2], none⟩) ∧ s.IsDeviceMismatchError) :=
  device_mismatch_fails Kernels.writeNothing ⟨0, MatType.NGRAY, [1, 1, 2, 2], some (ramp 0 4)⟩
    ⟨1, MatType.NGRAY, [1, 1, 2, 2], none⟩ (ramp 0 4) ⟨InterpType.INTERP_TYPE_LINEAR⟩
    ⟨0, 0, 2, 2⟩ ⟨[], InterpType.INTERP_TYPE_LINEAR, BorderType.BORDER_TYPE_CONSTANT, ()⟩
    rfl (by decide)

/-- C8. For every pixel format, every parameter record and every destination (whatever its
device tag, storage present or not), each of `Resize`, `Crop` and `WarpAffine` called with a
source whose storage is absent fails with NullInputError, and the destination is returned
exactly as it was: it is not allocated and no byte is written. -/
theorem null_source_fails {F : Type} (K : Kernels F) (src dst : Mat)
    (rp : ResizeParam) (cp : CropParam) (wp : WarpAffineParam F)
    (hsrc : src.data = none) :
    (∃ s, Resize K src dst rp = some (s, dst) ∧ s.IsNullInputError) ∧
    (∃ s, Crop src dst cp = some (s, dst) ∧ s.IsNullInputError) ∧
    (∃ s, WarpAffine K src dst wp = some (s, dst) ∧ s.IsNullInputError) := by
  refine ⟨⟨⟨StatusCode.TNNERR_NULL_PARAM, "input mat is null"⟩, ?_, rfl⟩,
    ⟨⟨StatusCode.TNNERR_NULL_PARAM, "input mat is null"⟩, ?_, rfl⟩,
    ⟨⟨StatusCode.TNNERR_NULL_PARAM, "input mat is null"⟩, ?_, rfl⟩⟩
  · unfold Resize
    simp only [Mat.GetData, hsrc]
  · unfold Crop
    simp only [Mat.GetData, hsrc]
  · unfold WarpAffine
    simp only [Mat.GetData, hsrc]

/-- Witness of C8: a null packed 4-channel source and an unallocated destination on another
device. -/
theorem null_source_fails_witness :
    (∃ s, Resize Kernels.writeNothing ⟨0, MatType.N8UC4, [1, 4, 2, 2], none⟩
        ⟨1, MatType.N8UC4, [1, 4, 1, 1], none⟩ ⟨InterpType.INTERP_TYPE_LINEAR⟩ =
        some (s, ⟨1, MatType.N8UC4, [1, 4, 1, 1], none⟩) ∧ s.IsNullInputError) ∧
    (∃ s, Crop ⟨0, MatType.N8UC4, [1, 4, 2, 2], none⟩
        ⟨1, MatType.N8UC4, [1, 4, 1, 1], none⟩ ⟨0, 0, 1, 1⟩ =
        some (s, ⟨1, MatType.N8UC4, [1, 4, 1, 1], none⟩) ∧ s.IsNullInputError) ∧
    (∃ s, WarpAffine Kernels.writeNothing ⟨0, MatType.N8UC4, [1, 4, 2, 2], none⟩
        ⟨1, MatType.N8UC4, [1, 4, 1, 1], none⟩
        ⟨[], InterpType.INTERP_TYPE_LINEAR, BorderType.BORDER_TYPE_CONSTANT, ()⟩ =
        some (s, ⟨1, MatType.N8UC4, [1, 4, 1, 1], none⟩) ∧ s.IsNullInputError) :=
  null_source_fails Kernels.writeNothing ⟨0, MatType.N8UC4, [1, 4, 2, 2], none⟩
    ⟨1, MatType.N8UC4, [1, 4, 1, 1], none⟩ ⟨InterpType.INTERP_TYPE_LINEAR⟩
    ⟨0, 0, 1, 1⟩ ⟨[], InterpType.INTERP_TYPE_LINEAR, BorderType.BORDER_TYPE_CONSTANT, ()⟩ rfl

/-- The status and destination returned by `Resize` once the source storage is present and
the device tags agree. -/
theorem Resize_eq {F : Type} (K : Kernels F) (src dst : Mat) (srcData dstData : Bytes)
    (param : ResizeParam) (hsrc : src.data = some srcData)
    (hdev : dst.device_type = src.device_type)
    (hdst : dst.allocateIfNull.data = some dstData) :
    Resize K src dst param =
      if src.mat_type = MatType.N8UC4 then
        if param.type = InterpType.INTERP_TYPE_LINEAR then
          some (Status.OK, { dst.allocateIfNull with
            data := some (Resize.loop K src dst.allocateIfNull srcData src.GetChannel
              src.GetBatch.toNat 0 dstData) })
        else
          some (⟨StatusCode.TNNERR_PARAM_ERR, "interpolation type not support yet"⟩,
            dst.allocateIfNull)
      else
        some (⟨StatusCode.TNNERR_PARAM_ERR, "convert type not support yet"⟩,
          dst.allocateIfNull) := by
  have hdev' : ¬ src.GetDeviceType ≠ dst.GetDeviceType := by
    simp [Mat.GetDeviceType, hdev]
  unfold Resize
  simp only [Mat.GetData, hsrc, if_neg hdev', hdst, Mat.GetMatType]
  by_cases h4 : src.mat_type = MatType.N8UC4
  · simp only [h4, if_true]
    simp
  · simp only [if_neg h4]
    split_ifs <;> rfl

/-- C9. For a source with storage present whose format is not the packed 4-channel byte
format, a same-device destination whose storage is already allocated and every
`ResizeParam`, `Resize` fails with UnsupportedOperationError and returns the destination
exactly as it was: every byte and every metadata field is unchanged. -/
theorem Resize_unsupported_format_keeps_dst {F : Type} (K : Kernels F) (src dst : Mat)
    (srcData dstData : Bytes) (param : ResizeParam)
    (hsrc : src.data = some srcData) (hfmt : src.mat_type ≠ MatType.N8UC4)
    (hdev : dst.device_type = src.device_type) (hdst : dst.data = some dstData) :
    ∃ s, Resize K src dst param = some (s, dst) ∧ s.IsUnsupportedOperationError := by
  have hal : dst.allocateIfNull = dst := Mat.allocateIfNull_of_some hdst
  refine ⟨⟨StatusCode.TNNERR_PARAM_ERR, "convert type not support yet"⟩, ?_, rfl, Or.inl rfl⟩
  rw [Resize_eq K src dst srcData dstData param hsrc hdev (by rw [hal]; exact hdst),
    if_neg hfmt, hal]

/-- Witness of C9: a float source and a pre-allocated float destination. -/
theorem Resize_unsupported_format_keeps_dst_witness :
    ∃ s, Resize Kernels.writeNothing ⟨0, MatType.NCHW_FLOAT, [1, 1, 1, 2], some (ramp 0 8)⟩
        ⟨0, MatType.NCHW_FLOAT, [1, 1, 1, 1], some (ramp 100 4)⟩
        ⟨InterpType.INTERP_TYPE_LINEAR⟩ =
        some (s, ⟨0, MatType.NCHW_FLOAT, [1, 1, 1, 1], some (ramp 100 4)⟩) ∧
      s.IsUnsupportedOperationError :=
  Resize_unsupported_format_keeps_dst Kernels.writeNothing
    ⟨0, MatType.NCHW_FLOAT, [1, 1, 1, 2], some (ramp 0 8)⟩
    ⟨0, MatType.NCHW_FLOAT, [1, 1, 1, 1], some (ramp 100 4)⟩ (ramp 0 8) (ramp 100 4)
    ⟨InterpType.INTERP_TYPE_LINEAR⟩ rfl (by decide) rfl rfl

/-- C10. For a source with storage present and a same-device destination, `Resize` returns
a status; the status is Ok if and only if the source format is the packed 4-channel byte
format and the interpolation type is linear, and in every other case it is
UnsupportedOperationError. -/
theorem Resize_ok_iff {F : Type} (K : Kernels F) (src dst : Mat) (srcData : Bytes)
    (param : ResizeParam) (hsrc : src.data = some srcData)
    (hdev : dst.device_type = src.device_type) :
    ∃ s d, Resize K src dst param = some (s, d) ∧
      (s.IsOk ↔ (src.mat_type = MatType.N8UC4 ∧ param.type = InterpType.INTERP_TYPE_LINEAR)) ∧
      (¬ (src.mat_type = MatType.N8UC4 ∧ param.type = InterpType.INTERP_TYPE_LINEAR) →
        s.IsUnsupportedOperationError) := by
  obtain ⟨dstData, hdst⟩ := dst.allocateIfNull_data_isSome
  rw [Resize_eq K src dst srcData dstData param hsrc hdev hdst]
  by_cases h4 : src.mat_type = MatType.N8UC4
  · by_cases hl : param.type = InterpType.INTERP_TYPE_LINEAR
    · rw [if_pos h4, if_pos hl]
      exact ⟨Status.OK, _, rfl, ⟨fun _ => ⟨h4, hl⟩, fun _ => rfl⟩, fun h => absurd ⟨h4, hl⟩ h⟩
    · rw [if_pos h4, if_neg hl]
      refine ⟨⟨StatusCode.TNNERR_PARAM_ERR, "interpolation type not support yet"⟩, _, rfl,
        ⟨fun h => ?_, fun h => absurd h.2 hl⟩, fun _ => ⟨rfl, Or.inr (Or.inl rfl)⟩⟩
      exact absurd h (by decide)
  · rw [if_neg h4]
    refine ⟨⟨StatusCode.TNNERR_PARAM_ERR, "convert type not support yet"⟩, _, rfl,
      ⟨fun h => ?_, fun h => absurd h.1 h4⟩, fun _ => ⟨rfl, Or.inl rfl⟩⟩
    exact absurd h (by decide)

/-- Witness of C10: a packed 4-channel source, linear interpolation, an unallocated
destination; the status is Ok. -/
theorem Resize_ok_iff_witness :
    (∃ s d, Resize Kernels.writeNothing ⟨0, MatType.N8UC4, [1, 4, 1, 1], some (ramp 0 4)⟩
        ⟨0, MatType.N8UC4, [1, 4, 1, 1], none⟩ ⟨InterpType.INTERP_TYPE_LINEAR⟩ = some (s, d) ∧
      (s.IsOk ↔ ((⟨0, MatType.N8UC4, [1, 4, 1, 1], some (ramp 0 4)⟩ : Mat).mat_type =
          MatType.N8UC4 ∧
        (⟨InterpType.INTERP_TYPE_LINEAR⟩ : ResizeParam).type = InterpType.INTERP_TYPE_LINEAR)) ∧
      (¬ ((⟨0, MatType.N8UC4, [1, 4, 1, 1], some (ramp 0 4)⟩ : Mat).mat_type =
          MatType.N8UC4 ∧
        (⟨InterpType.INTERP_TYPE_LINEAR⟩ : ResizeParam).type = InterpType.INTERP_TYPE_LINEAR) →
        s.IsUnsupportedOperationError)) ∧
    Resize Kernels.writeNothing ⟨0, MatType.N8UC4, [1, 4, 1, 1], some (ramp 0 4)⟩
        ⟨0, MatType.N8UC4, [1, 4, 1, 1], none⟩ ⟨InterpType.INTERP_TYPE_LINEAR⟩ =
      some (Status.OK, ⟨0, MatType.N8UC4, [1, 4, 1, 1], some [0, 0, 0, 0]⟩) :=
  ⟨Resize_ok_iff Kernels.writeNothing ⟨0, MatType.N8UC4, [1, 4, 1, 1], some (ramp 0 4)⟩
      ⟨0, MatType.N8UC4, [1, 4, 1, 1], none⟩ (ramp 0 4) ⟨InterpType.INTERP_TYPE_LINEAR⟩ rfl rfl,
    by decide⟩

/-- The status and destination returned by `WarpAffine` once the source storage is present,
the device tags agree and the dims have a batch entry. -/
theorem WarpAffine_eq {F : Type} (K : Kernels F) (src dst : Mat) (srcData dstData : Bytes)
    (param : WarpAffineParam F) (B : Int) (rest : DimsVector)
    (hsrc : src.data = some srcData) (hdev : dst.device_type = src.device_type)
    (hdst : dst.allocateIfNull.data = some dstData) (hdims : src.dims = B :: rest) :
    WarpAffine K src dst param =
      if src.mat_type = MatType.NGRAY ∨ src.mat_type = MatType.N8UC3 ∨
          src.mat_type = MatType.N8UC4 then
        if param.interp_type = InterpType.INTERP_TYPE_LINEAR ∧
            param.border_type = BorderType.BORDER_TYPE_CONSTANT then
          some (Status.OK, { dst.allocateIfNull with
            data := some (WarpAffine.loop K src dst.allocateIfNull srcData param
              (if src.mat_type = MatType.NGRAY then 1
                else if src.mat_type = MatType.N8UC3 then 3 else 4) B.toNat 0 dstData) })
        else
          some (⟨StatusCode.TNNERR_PARAM_ERR, "warpaffine type not support yet"⟩,
            dst.allocateIfNull)
      else
        some (⟨StatusCode.TNNERR_PARAM_ERR, "convert type not support yet"⟩,
          dst.allocateIfNull) := by
  have hdev' : ¬ src.GetDeviceType ≠ dst.GetDeviceType := by
    simp [Mat.GetDeviceType, hdev]
  unfold WarpAffine WarpAffine.branch
  simp only [Mat.GetData, hsrc, if_neg hdev', hdst, Mat.GetMatType, Mat.GetDims, hdims,
    List.head?_cons]
  by_cases hg : src.mat_type = MatType.NGRAY
  · simp only [hg, if_true, true_or]
  · by_cases h3 : src.mat_type = MatType.N8UC3
    · simp only [h3, if_true, true_or, or_true]
      simp
    · by_cases h4 : src.mat_type = MatType.N8UC4
      · simp only [h4, if_true, or_true]
        simp
      · simp only [if_neg hg, if_neg h3, if_neg h4, hg, h3, h4, or_self, if_false]

/-- C11. For a source with storage present (and a batch entry in its dims) and a same-device
destination, `WarpAffine` returns a status; the status is Ok if and only if the source
format is gray, 3-channel or 4-channel packed byte and the interpolation type is linear and
the border type is constant, and in every other case it is UnsupportedOperationError. -/
theorem WarpAffine_ok_iff {F : Type} (K : Kernels F) (src dst : Mat) (srcData : Bytes)
    (param : WarpAffineParam F) (hsrc : src.data = some srcData)
    (hdims : src.dims ≠ []) (hdev : dst.device_type = src.device_type) :
    ∃ s d, WarpAffine K src dst param = some (s, d) ∧
      (s.IsOk ↔
        ((src.mat_type = MatType.NGRAY ∨ src.mat_type = MatType.N8UC3 ∨
            src.mat_type = MatType.N8UC4) ∧
          param.interp_type = InterpType.INTERP_TYPE_LINEAR ∧
          param.border_type = BorderType.BORDER_TYPE_CONSTANT)) ∧
      (¬ ((src.mat_type = MatType.NGRAY ∨ src.mat_type = MatType.N8UC3 ∨
            src.mat_type = MatType.N8UC4) ∧
          param.interp_type = InterpType.INTERP_TYPE_LINEAR ∧
          param.border_type = BorderType.BORDER_TYPE_CONSTANT) →
        s.IsUnsupportedOperationError) := by
  obtain ⟨dstData, hdst⟩ := dst.allocateIfNull_data_isSome
  obtain ⟨B, rest, hBr⟩ : ∃ B rest, src.dims = B :: rest := by
    cases h : src.dims with
    | nil => exact absurd h hdims
    | cons B rest => exact ⟨B, rest, rfl⟩
  rw [WarpAffine_eq K src dst srcData dstData param B rest hsrc hdev hdst hBr]
  by_cases hf : src.mat_type = MatType.NGRAY ∨ src.mat_type = MatType.N8UC3 ∨
      src.mat_type = MatType.N8UC4
  · by_cases hl : param.interp_type = InterpType.INTERP_TYPE_LINEAR ∧
        param.border_type = BorderType.BORDER_TYPE_CONSTANT
    · rw [if_pos hf, if_pos hl]
      exact ⟨Status.OK, _, rfl, ⟨fun _ => ⟨hf, hl⟩, fun _ => rfl⟩, fun h => absurd ⟨hf, hl⟩ h⟩
    · rw [if_pos hf, if_neg hl]
      refine ⟨⟨StatusCode.TNNERR_PARAM_ERR, "warpaffine type not support yet"⟩, _, rfl,
        ⟨fun h => ?_, fun h => absurd h.2 hl⟩, fun _ => ⟨rfl, Or.inr (Or.inr rfl)⟩⟩
      exact absurd h (by decide)
  · rw [if_neg hf]
    refine ⟨⟨StatusCode.TNNERR_PARAM_ERR, "convert type not support yet"⟩, _, rfl,
      ⟨fun h => ?_, fun h => absurd h.1 hf⟩, fun _ => ⟨rfl, Or.inl rfl⟩⟩
    exact absurd h (by decide)

/-- Witness of C11: a 3-channel source, linear interpolation, constant border, an
unallocated destination; the status is Ok. -/
theorem WarpAffine_ok_iff_witness :
    (∃ s d, WarpAffine Kernels.writeNothing ⟨0, MatType.N8UC3, [1, 3, 1, 1], some (ramp 0 3)⟩
        ⟨0, MatType.N8UC3, [1, 3, 1, 1], none⟩
        ⟨[], InterpType.INTERP_TYPE_LINEAR, BorderType.BORDER_TYPE_CONSTANT, ()⟩ =
        some (s, d) ∧
      (s.IsOk ↔
        (((⟨0, MatType.N8UC3, [1, 3, 1, 1], some (ramp 0 3)⟩ : Mat).mat_type = MatType.NGRAY ∨
            (⟨0, MatType.N8UC3, [1, 3, 1, 1], some (ramp 0 3)⟩ : Mat).mat_type =
              MatType.N8UC3 ∨
            (⟨0, MatType.N8UC3, [1, 3, 1, 1], some (ramp 0 3)⟩ : Mat).mat_type =
              MatType.N8UC4) ∧
          InterpType.INTERP_TYPE_LINEAR = InterpType.INTERP_TYPE_LINEAR ∧
          BorderType.BORDER_TYPE_CONSTANT = BorderType.BORDER_TYPE_CONSTANT)) ∧
      (¬ (((⟨0, MatType.N8UC3, [1, 3, 1, 1], some (ramp 0 3)⟩ : Mat).mat_type =
              MatType.NGRAY ∨
            (⟨0, MatType.N8UC3, [1, 3, 1, 1], some (ramp 0 3)⟩ : Mat).mat_type =
              MatType.N8UC3 ∨
            (⟨0, MatType.N8UC3, [1, 3, 1, 1], some (ramp 0 3)⟩ : Mat).mat_type =
              MatType.N8UC4) ∧
          InterpType.INTERP_TYPE_LINEAR = InterpType.INTERP_TYPE_LINEAR ∧
          BorderType.BORDER_TYPE_CONSTANT = BorderType.BORDER_TYPE_CONSTANT) →
        s.IsUnsupportedOperationError)) ∧
    WarpAffine Kernels.writeNothing ⟨0, MatType.N8UC3, [1, 3, 1, 1], some (ramp 0 3)⟩
        ⟨0, MatType.N8UC3, [1, 3, 1, 1], none⟩
        ⟨[], InterpType.INTERP_TYPE_LINEAR, BorderType.BORDER_TYPE_CONSTANT, ()⟩ =
      some (Status.OK, ⟨0, MatType.N8UC3, [1, 3, 1, 1], some [0, 0, 0]⟩) :=
  ⟨WarpAffine_ok_iff Kernels.writeNothing ⟨0, MatType.N8UC3, [1, 3, 1, 1], some (ramp 0 3)⟩
      ⟨0, MatType.N8UC3, [1, 3, 1, 1], none⟩ (ramp 0 3)
      ⟨[], InterpType.INTERP_TYPE_LINEAR, BorderType.BORDER_TYPE_CONSTANT, ()⟩
      rfl (by decide) rfl,
    by decide⟩

/-- The batch loop of `Resize` calls the kernel once per batch `i`, in order, with the `int`
plane offsets `(batch + i) × width × height × channel`. -/
theorem Resize_loop_eq_foldl {F : Type} (K : Kernels F) (src dst : Mat) (srcData : Bytes)
    (channel : Int) :
    ∀ (todo : Nat) (batch : Int) (dstData : Bytes),
      Resize.loop K src dst srcData channel todo batch dstData =
        (List.range todo).foldl (fun acc (i : Nat) =>
          K.resize_bilinear srcData
            (int_mul (int_mul (int_mul (batch + (i : Int)) src.GetWidth) src.GetHeight) channel)
            src.GetWidth src.GetHeight
            acc (int_mul (int_mul (int_mul (batch + (i : Int)) dst.GetWidth) dst.GetHeight) channel)
            dst.GetWidth dst.GetHeight) dstData := by
  intro todo
  induction todo with
  | zero => intro batch dstData; rfl
  | succ k ih =>
    intro batch dstData
    rw [List.range_succ_eq_map, List.foldl_cons, List.foldl_map]
    have e : ∀ i : Int, batch + 1 + i = batch + (i + 1) := fun i => by ring
    simp only [Resize.loop, ih, Nat.cast_zero, add_zero, Nat.cast_succ, e]

/-- The batch loop of `WarpAffine` calls the kernel once per batch `i`, in order, with the
`int` plane offsets `(batch + i) × width × height × channel`. -/
theorem WarpAffine_loop_eq_foldl {F : Type} (K : Kernels F) (src dst : Mat) (srcData : Bytes)
    (param : WarpAffineParam F) (channel : Int) :
    ∀ (todo : Nat) (batch : Int) (dstData : Bytes),
      WarpAffine.loop K src dst srcData param channel todo batch dstData =
        (List.range todo).foldl (fun acc (i : Nat) =>
          K.warpaffine_bilinear srcData
            (int_mul (int_mul (int_mul (batch + (i : Int)) src.GetWidth) src.GetHeight) channel)
            src.GetWidth src.GetHeight channel
            acc (int_mul (int_mul (int_mul (batch + (i : Int)) dst.GetWidth) dst.GetHeight) channel)
            dst.GetWidth dst.GetHeight param.transform param.border_val) dstData := by
  intro todo
  induction todo with
  | zero => intro batch dstData; rfl
  | succ k ih =>
    intro batch dstData
    rw [List.range_succ_eq_map, List.foldl_cons, List.foldl_map]
    have e : ∀ i : Int, batch + 1 + i = batch + (i + 1) := fun i => by ring
    simp only [WarpAffine.loop, ih, Nat.cast_zero, add_zero, Nat.cast_succ, e]

/-- C12 (the code at the failing input). A packed 4-channel source of two 2×1 batches that
declares 3 channels, resized to 1×1 with the top-left-pixel kernel.  The two sources differ
only in byte 7, which lies in batch 0's plane (bytes 0-7).  `Resize` offsets batch 1 by
`1 × 2 × 1 × 3 = 6` bytes, so its kernel call reads bytes 6-9 and batch 1's destination
plane (bytes 4-7) differs between the two runs; `WarpAffine`, which offsets by
`1 × 2 × 1 × 4 = 8`, leaves batch 1's destination plane identical. -/
theorem Resize_declared_channel_breaks_plane_isolation :
    slice (ramp 0 16) 8 8 = slice ((ramp 0 16).set 7 200) 8 8 ∧
    Resize Kernels.topLeftPixel ⟨0, MatType.N8UC4, [2, 3, 1, 2], some (ramp 0 16)⟩
        ⟨0, MatType.N8UC4, [2, 3, 1, 1], some (ramp 100 8)⟩ ⟨InterpType.INTERP_TYPE_LINEAR⟩ =
      some (Status.OK, ⟨0, MatType.N8UC4, [2, 3, 1, 1], some [0, 1, 2, 6, 7, 8, 9, 107]⟩) ∧
    Resize Kernels.topLeftPixel ⟨0, MatType.N8UC4, [2, 3, 1, 2], some ((ramp 0 16).set 7 200)⟩
        ⟨0, MatType.N8UC4, [2, 3, 1, 1], some (ramp 100 8)⟩ ⟨InterpType.INTERP_TYPE_LINEAR⟩ =
      some (Status.OK, ⟨0, MatType.N8UC4, [2, 3, 1, 1], some [0, 1, 2, 6, 200, 8, 9, 107]⟩) ∧
    slice [0, 1, 2, 6, 7, 8, 9, 107] 4 4 ≠ slice [0, 1, 2, 6, 200, 8, 9, 107] 4 4 ∧
    WarpAffine Kernels.topLeftPixel ⟨0, MatType.N8UC4, [2, 3, 1, 2], some (ramp 0 16)⟩
        ⟨0, MatType.N8UC4, [2, 3, 1, 1], some (ramp 100 8)⟩
        ⟨[], InterpType.INTERP_TYPE_LINEAR, BorderType.BORDER_TYPE_CONSTANT, ()⟩ =
      some (Status.OK, ⟨0, MatType.N8UC4, [2, 3, 1, 1], some [0, 1, 2, 3, 8, 9, 10, 11]⟩) ∧
    WarpAffine Kernels.topLeftPixel
        ⟨0, MatType.N8UC4, [2, 3, 1, 2], some ((ramp 0 16).set 7 200)⟩
        ⟨0, MatType.N8UC4, [2, 3, 1, 1], some (ramp 100 8)⟩
        ⟨[], InterpType.INTERP_TYPE_LINEAR, BorderType.BORDER_TYPE_CONSTANT, ()⟩ =
      some (Status.OK, ⟨0, MatType.N8UC4, [2, 3, 1, 1], some [0, 1, 2, 3, 8, 9, 10, 11]⟩) := by
  decide

/-- C13 (the code at the failing input). A packed 4-channel source of three 2×2 batches that
declares 3 channels, with the kernel that records the offsets it is called with: `Resize`
passes the plane offsets 0, 12, 24 (`batch × 2 × 2 × 3`, the declared channel count), while
`WarpAffine` passes 0, 16, 32 (`batch × 2 × 2 × 4`). -/
theorem Resize_WarpAffine_plane_offsets_differ :
    Resize Kernels.recordOffsets ⟨0, MatType.N8UC4, [3, 3, 2, 2], some (ramp 0 48)⟩
        ⟨0, MatType.N8UC4, [3, 3, 2, 2], some []⟩ ⟨InterpType.INTERP_TYPE_LINEAR⟩ =
      some (Status.OK, ⟨0, MatType.N8UC4, [3, 3, 2, 2], some [0, 0, 12, 12, 24, 24]⟩) ∧
    WarpAffine Kernels.recordOffsets ⟨0, MatType.N8UC4, [3, 3, 2, 2], some (ramp 0 48)⟩
        ⟨0, MatType.N8UC4, [3, 3, 2, 2], some []⟩
        ⟨[], InterpType.INTERP_TYPE_LINEAR, BorderType.BORDER_TYPE_CONSTANT, ()⟩ =
      some (Status.OK, ⟨0, MatType.N8UC4, [3, 3, 2, 2], some [0, 0, 16, 16, 32, 32]⟩) := by
  decide

theorem slice_congr {a b : Bytes} {off n : Int} (h0 : 0 ≤ off)
    (h : ∀ i : Nat, off ≤ (i : Int) → (i : Int) < off + n → a[i]? = b[i]?) :
    slice a off n = slice b off n := by
  apply slice_eq_of_getElem? h0 h0
  intro j hj
  have e : ((off + j).toNat : Int) = off + j := Int.toNat_of_nonneg (by omega)
  exact h _ (by omega) (by omega)

/-- A defined run of the row loop made no access outside the two storages: every row of a
non-empty copy lies inside the source and inside the destination. -/
theorem MatMemcpy_2d.loop_bounds {src : Bytes} {width ss ds : Int} (hw : width ≠ 0) :
    ∀ (k : Nat) {sp dp : Int} {dst d : Bytes},
      MatMemcpy_2d.loop src width ss ds k sp dp dst = some d →
      ∀ r : Nat, r < k →
        0 ≤ sp + r * ss ∧ sp + r * ss + width ≤ src.length ∧
        0 ≤ dp + r * ds ∧ dp + r * ds + width ≤ dst.length := by
  intro k
  induction k with
  | zero => intro sp dp dst d _ r hr; exact absurd hr (Nat.not_lt_zero r)
  | succ k ih =>
    intro sp dp dst d h r hr
    simp only [MatMemcpy_2d.loop] at h
    cases hm : memcpy dst dp src sp width with
    | none => rw [hm] at h; cases h
    | some d1 =>
      rw [hm] at h
      obtain ⟨⟨h1, h2, h3, h4, h5⟩, -⟩ := (memcpy_eq_some_iff hw).1 hm
      cases r with
      | zero => simp only [Nat.cast_zero, zero_mul, add_zero]; exact ⟨h2, h3, h4, h5⟩
      | succ r' =>
        have := ih h r' (Nat.lt_of_succ_lt_succ hr)
        rw [memcpy_length hm] at this
        have e1 : sp + ((r' + 1 : Nat) : Int) * ss = sp + ss + r' * ss := by push_cast; ring
        have e2 : dp + ((r' + 1 : Nat) : Int) * ds = dp + ds + r' * ds := by push_cast; ring
        rw [e1, e2]; exact this

/-- Every defined return of `Crop`: an error with the destination as passed in (null source,
device mismatch), an error with the destination as left by the allocation step, or Ok with
the allocated destination holding new bytes. -/
theorem Crop_result_cases {src dst : Mat} {param : CropParam} {s : Status} {d : Mat}
    (h : Crop src dst param = some (s, d)) :
    (¬ s.IsOk ∧ (d = dst ∨ (src.data ≠ none ∧ d = dst.allocateIfNull))) ∨
    (s = Status.OK ∧ ∃ bytes, d = { dst.allocateIfNull with data := some bytes }) := by
  unfold Crop at h
  simp only [Mat.GetData] at h
  cases hs : src.data with
  | none =>
    simp only [hs] at h
    cases h
    exact Or.inl ⟨by decide, Or.inl rfl⟩
  | some srcData =>
    simp only [hs] at h
    repeat' split at h
    all_goals cases h
    all_goals first
      | exact Or.inl ⟨by decide, Or.inl rfl⟩
      | exact Or.inl ⟨by decide, Or.inr ⟨by simp, rfl⟩⟩
      | exact Or.inr ⟨rfl, _, rfl⟩

/-- Every defined return of `Resize`, in the same three shapes as for `Crop`. -/
theorem Resize_result_cases {F : Type} {K : Kernels F} {src dst : Mat} {param : ResizeParam}
    {s : Status} {d : Mat} (h : Resize K src dst param = some (s, d)) :
    (¬ s.IsOk ∧ (d = dst ∨ (src.data ≠ none ∧ d = dst.allocateIfNull))) ∨
    (s = Status.OK ∧ ∃ bytes, d = { dst.allocateIfNull with data := some bytes }) := by
  unfold Resize at h
  simp only [Mat.GetData] at h
  cases hs : src.data with
  | none =>
    simp only [hs] at h
    cases h
    exact Or.inl ⟨by decide, Or.inl rfl⟩
  | some srcData =>
    simp only [hs] at h
    repeat' split at h
    all_goals cases h
    all_goals first
      | exact Or.inl ⟨by decide, Or.inl rfl⟩
      | exact Or.inl ⟨by decide, Or.inr ⟨by simp, rfl⟩⟩
      | exact Or.inr ⟨rfl, _, rfl⟩

/-- Every defined return of `WarpAffine`, in the same three shapes as for `Crop`. -/
theorem WarpAffine_result_cases {F : Type} {K : Kernels F} {src dst : Mat}
    {param : WarpAffineParam F} {s : Status} {d : Mat}
    (h : WarpAffine K src dst param = some (s, d)) :
    (¬ s.IsOk ∧ (d = dst ∨ (src.data ≠ none ∧ d = dst.allocateIfNull))) ∨
    (s = Status.OK ∧ ∃ bytes, d = { dst.allocateIfNull with data := some bytes }) := by
  unfold WarpAffine WarpAffine.branch at h
  simp only [Mat.GetData] at h
  cases hs : src.data with
  | none =>
    simp only [hs] at h
    cases h
    exact Or.inl ⟨by decide, Or.inl rfl⟩
  | some srcData =>
    simp only [hs] at h
    repeat' split at h
    all_goals cases h
    all_goals first
      | exact Or.inl ⟨by decide, Or.inl rfl⟩
      | exact Or.inl ⟨by decide, Or.inr ⟨by simp, rfl⟩⟩
      | exact Or.inr ⟨rfl, _, rfl⟩

theorem Mat.allocateIfNull_of_none {m : Mat} (h : m.data = none) :
    m.allocateIfNull = Mat.create m.device_type m.mat_type m.dims := by
  unfold Mat.allocateIfNull Mat.GetData; rw [h]; rfl

theorem Mat.allocateIfNull_idem (m : Mat) :
    m.allocateIfNull.allocateIfNull = m.allocateIfNull := by
  obtain ⟨b, hb⟩ := m.allocateIfNull_data_isSome
  exact Mat.allocateIfNull_of_some hb

/-- Once the source storage is present and the device tags agree, every defined return of
`Crop` carries the destination left by the allocation step, with new bytes when the status
is Ok. -/
theorem Crop_result_after_checks {src dst : Mat} {param : CropParam}
    {srcData : Bytes} {s : Status} {d : Mat} (hsrc : src.data = some srcData)
    (hdev : dst.device_type = src.device_type) (h : Crop src dst param = some (s, d)) :
    (¬ s.IsOk ∧ d = dst.allocateIfNull) ∨
    (s = Status.OK ∧ ∃ bytes, d = { dst.allocateIfNull with data := some bytes }) := by
  have hdev' : ¬ src.GetDeviceType ≠ dst.GetDeviceType := by
    simp [Mat.GetDeviceType, hdev]
  unfold Crop at h
  simp only [Mat.GetData, hsrc, if_neg hdev'] at h
  repeat' split at h
  all_goals cases h
  all_goals first
    | exact Or.inl ⟨by decide, rfl⟩
    | exact Or.inr ⟨rfl, _, rfl⟩

/-- The same for `Resize`. -/
theorem Resize_result_after_checks {F : Type} {K : Kernels F} {src dst : Mat} {param : ResizeParam}
    {srcData : Bytes} {s : Status} {d : Mat} (hsrc : src.data = some srcData)
    (hdev : dst.device_type = src.device_type) (h : Resize K src dst param = some (s, d)) :
    (¬ s.IsOk ∧ d = dst.allocateIfNull) ∨
    (s = Status.OK ∧ ∃ bytes, d = { dst.allocateIfNull with data := some bytes }) := by
  have hdev' : ¬ src.GetDeviceType ≠ dst.GetDeviceType := by
    simp [Mat.GetDeviceType, hdev]
  unfold Resize at h
  simp only [Mat.GetData, hsrc, if_neg hdev'] at h
  repeat' split at h
  all_goals cases h
  all_goals first
    | exact Or.inl ⟨by decide, rfl⟩
    | exact Or.inr ⟨rfl, _, rfl⟩

/-- The same for `WarpAffine`. -/
theorem WarpAffine_result_after_checks {F : Type} {K : Kernels F} {src dst : Mat}
    {param : WarpAffineParam F}
    {srcData : Bytes} {s : Status} {d : Mat} (hsrc : src.data = some srcData)
    (hdev : dst.device_type = src.device_type) (h : WarpAffine K src dst param = some (s, d)) :
    (¬ s.IsOk ∧ d = dst.allocateIfNull) ∨
    (s = Status.OK ∧ ∃ bytes, d = { dst.allocateIfNull with data := some bytes }) := by
  have hdev' : ¬ src.GetDeviceType ≠ dst.GetDeviceType := by
    simp [Mat.GetDeviceType, hdev]
  unfold WarpAffine WarpAffine.branch at h
  simp only [Mat.GetData, hsrc, if_neg hdev'] at h
  repeat' split at h
  all_goals cases h
  all_goals first
    | exact Or.inl ⟨by decide, rfl⟩
    | exact Or.inr ⟨rfl, _, rfl⟩

/-- The destination left by the allocation step has storage and keeps the declared device
tag, format and dims; so does the same destination with new bytes. -/
theorem allocated_destination_invariant {dst d : Mat} {s : Status}
    (h : (¬ s.IsOk ∧ d = dst.allocateIfNull) ∨
      (s = Status.OK ∧ ∃ bytes, d = { dst.allocateIfNull with data := some bytes })) :
    d.data ≠ none ∧ d.device_type = dst.device_type ∧ d.mat_type = dst.mat_type ∧
      d.dims = dst.dims ∧ (¬ s.IsOk → d = dst.allocateIfNull) := by
  obtain ⟨b, hb⟩ := dst.allocateIfNull_data_isSome
  rcases h with ⟨-, hd⟩ | ⟨hs, bytes, hd⟩
  · subst hd
    exact ⟨by rw [hb]; simp, dst.allocateIfNull_device, dst.allocateIfNull_mat_type,
      dst.allocateIfNull_dims, fun _ => rfl⟩
  · subst hd
    refine ⟨by simp, dst.allocateIfNull_device, dst.allocateIfNull_mat_type,
      dst.allocateIfNull_dims, fun hn => ?_⟩
    rw [hs] at hn
    exact absurd rfl hn

/-- Each operation continues on the destination left by its allocation step. -/
theorem operations_run_on_allocated {F : Type} (K : Kernels F) (src dst : Mat)
    (rp : ResizeParam) (cp : CropParam) (wp : WarpAffineParam F)
    (srcData : Bytes) (hsrc : src.data = some srcData)
    (hdev : dst.device_type = src.device_type) :
    Resize K src dst rp = Resize K src dst.allocateIfNull rp ∧
    Crop src dst cp = Crop src dst.allocateIfNull cp ∧
    WarpAffine K src dst wp = WarpAffine K src dst.allocateIfNull wp := by
  have hdev1 : ¬ src.GetDeviceType ≠ dst.GetDeviceType := by
    simp [Mat.GetDeviceType, hdev]
  have hdev2 : ¬ src.GetDeviceType ≠ dst.allocateIfNull.GetDeviceType := by
    simp [Mat.GetDeviceType, hdev, Mat.allocateIfNull_device]
  refine ⟨?_, ?_, ?_⟩
  · unfold Resize
    simp only [Mat.GetData, hsrc, if_neg hdev1, if_neg hdev2, Mat.allocateIfNull_idem]
  · unfold Crop
    simp only [Mat.GetData, hsrc, if_neg hdev1, if_neg hdev2, Mat.allocateIfNull_idem]
  · unfold WarpAffine
    simp only [Mat.GetData, hsrc, if_neg hdev1, if_neg hdev2, Mat.allocateIfNull_idem]

/-- C16. For each of `Resize`, `Crop` and `WarpAffine`, a source with storage present and a
same-device destination: when the destination storage is absent the allocation step
replaces the destination by the buffer constructed from its own declared device tag, format
and dims, and when it is present the step leaves the destination as it is (no
re-allocation); the operation continues on that destination, and on every return, Ok or
error, the destination has storage and its device tag, format and dims are the declared
ones (on an error it is exactly the destination left by the allocation step).  `Resize`
always returns. -/
theorem destination_materialised_on_return {F : Type} (K : Kernels F) (src dst : Mat)
    (srcData : Bytes) (rp : ResizeParam) (cp : CropParam) (wp : WarpAffineParam F)
    (hsrc : src.data = some srcData) (hdev : dst.device_type = src.device_type) :
    (dst.data = none →
      dst.allocateIfNull = Mat.create dst.device_type dst.mat_type dst.dims) ∧
    (∀ b, dst.data = some b → dst.allocateIfNull = dst) ∧
    (Resize K src dst rp = Resize K src dst.allocateIfNull rp ∧
      Crop src dst cp = Crop src dst.allocateIfNull cp ∧
      WarpAffine K src dst wp = WarpAffine K src dst.allocateIfNull wp) ∧
    (∀ s d, (Resize K src dst rp = some (s, d) ∨ Crop src dst cp = some (s, d) ∨
        WarpAffine K src dst wp = some (s, d)) →
      d.data ≠ none ∧ d.device_type = dst.device_type ∧ d.mat_type = dst.mat_type ∧
        d.dims = dst.dims ∧ (¬ s.IsOk → d = dst.allocateIfNull)) ∧
    (∃ s d, Resize K src dst rp = some (s, d)) := by
  refine ⟨Mat.allocateIfNull_of_none, fun b hb => Mat.allocateIfNull_of_some hb,
    operations_run_on_allocated K src dst rp cp wp srcData hsrc hdev, ?_, ?_⟩
  · intro s d h
    rcases h with h | h | h
    · exact allocated_destination_invariant (Resize_result_after_checks hsrc hdev h)
    · exact allocated_destination_invariant (Crop_result_after_checks hsrc hdev h)
    · exact allocated_destination_invariant (WarpAffine_result_after_checks hsrc hdev h)
  · obtain ⟨dstData, hdst⟩ := dst.allocateIfNull_data_isSome
    rw [Resize_eq K src dst srcData dstData rp hsrc hdev hdst]
    split_ifs <;> exact ⟨_, _, rfl⟩

/-- Witness of C16: a gray 2×2 source and an unallocated 1×1 gray destination.  `Crop`
returns Ok with the allocated destination holding the cropped byte; `Resize` returns its
unsupported-format error with the allocated (zero-filled) destination. -/
theorem destination_materialised_on_return_witness :
    ((Sample.gray1x1Null.data = none →
        Sample.gray1x1Null.allocateIfNull =
          Mat.create Sample.gray1x1Null.device_type Sample.gray1x1Null.mat_type
            Sample.gray1x1Null.dims) ∧
      (∀ b, Sample.gray1x1Null.data = some b →
        Sample.gray1x1Null.allocateIfNull = Sample.gray1x1Null) ∧
      (Resize Kernels.writeNothing Sample.gray2x2 Sample.gray1x1Null
          ⟨InterpType.INTERP_TYPE_LINEAR⟩ =
        Resize Kernels.writeNothing Sample.gray2x2
          Sample.gray1x1Null.allocateIfNull ⟨InterpType.INTERP_TYPE_LINEAR⟩ ∧
        Crop Sample.gray2x2 Sample.gray1x1Null ⟨0, 0, 1, 1⟩ =
          Crop Sample.gray2x2
            Sample.gray1x1Null.allocateIfNull ⟨0, 0, 1, 1⟩ ∧
        WarpAffine Kernels.writeNothing Sample.gray2x2 Sample.gray1x1Null
            ⟨[], InterpType.INTERP_TYPE_LINEAR, BorderType.BORDER_TYPE_CONSTANT, ()⟩ =
          WarpAffine Kernels.writeNothing Sample.gray2x2
            Sample.gray1x1Null.allocateIfNull
            ⟨[], InterpType.INTERP_TYPE_LINEAR, BorderType.BORDER_TYPE_CONSTANT, ()⟩) ∧
      (∀ s d, (Resize Kernels.writeNothing Sample.gray2x2 Sample.gray1x1Null
            ⟨InterpType.INTERP_TYPE_LINEAR⟩ = some (s, d) ∨
          Crop Sample.gray2x2 Sample.gray1x1Null ⟨0, 0, 1, 1⟩ =
            some (s, d) ∨
          WarpAffine Kernels.writeNothing Sample.gray2x2 Sample.gray1x1Null
            ⟨[], InterpType.INTERP_TYPE_LINEAR, BorderType.BORDER_TYPE_CONSTANT, ()⟩ =
            some (s, d)) →
        d.data ≠ none ∧ d.device_type = Sample.gray1x1Null.device_type ∧
          d.mat_type = Sample.gray1x1Null.mat_type ∧ d.dims = Sample.gray1x1Null.dims ∧
          (¬ s.IsOk → d = Sample.gray1x1Null.allocateIfNull)) ∧
      (∃ s d, Resize Kernels.writeNothing Sample.gray2x2 Sample.gray1x1Null
        ⟨InterpType.INTERP_TYPE_LINEAR⟩ = some (s, d))) ∧
    Crop Sample.gray2x2 Sample.gray1x1Null ⟨0, 0, 1, 1⟩ =
      some (Status.OK, ⟨0, MatType.NGRAY, [1, 1, 1, 1], some [1]⟩) ∧
    Resize Kernels.writeNothing Sample.gray2x2 Sample.gray1x1Null ⟨InterpType.INTERP_TYPE_LINEAR⟩ =
      some (⟨StatusCode.TNNERR_PARAM_ERR, "convert type not support yet"⟩,
        ⟨0, MatType.NGRAY, [1, 1, 1, 1], some [0]⟩) :=
  ⟨destination_materialised_on_return Kernels.writeNothing Sample.gray2x2 Sample.gray1x1Null (ramp 1 4)
      ⟨InterpType.INTERP_TYPE_LINEAR⟩ ⟨0, 0, 1, 1⟩
      ⟨[], InterpType.INTERP_TYPE_LINEAR, BorderType.BORDER_TYPE_CONSTANT, ()⟩ rfl rfl,
    by decide, by decide⟩

/-- `Copy` has no defined result when a storage is absent: the null pointer reaches
`memcpy`. -/
theorem Copy_undefined_of_null (src dst : Mat) (h : src.data = none ∨ dst.data = none) :
    Copy src dst = none := by
  unfold Copy
  simp only [Mat.GetData]
  rcases h with h | h
  · rw [h]; split
    · rfl
    · split <;> first | rfl | simp_all
  · rw [h]; split <;> rfl

/-- C17 (the code at the failing input). `Copy` tests neither pointer: with the source
storage absent, or with the destination storage absent, the 3-byte `memcpy` is reached with
a null pointer, so the run has no defined result instead of returning NullInputError.  (The
sibling `Crop` returns the null-input error on the same null source.) -/
theorem Copy_null_storage_reaches_memcpy :
    Copy ⟨0, MatType.N8UC3, [1, 3, 1, 1], none⟩
        ⟨0, MatType.N8UC3, [1, 3, 1, 1], some (ramp 100 3)⟩ = none ∧
    Copy ⟨0, MatType.N8UC3, [1, 3, 1, 1], some (ramp 0 3)⟩
        ⟨0, MatType.N8UC3, [1, 3, 1, 1], none⟩ = none ∧
    Crop ⟨0, MatType.N8UC3, [1, 3, 1, 1], none⟩
        ⟨0, MatType.N8UC3, [1, 3, 1, 1], some (ramp 100 3)⟩ ⟨0, 0, 1, 1⟩ =
      some (⟨StatusCode.TNNERR_NULL_PARAM, "input mat is null"⟩,
        ⟨0, MatType.N8UC3, [1, 3, 1, 1], some (ramp 100 3)⟩) := by
  decide

theorem MatMemcpy_2d_ref_length (src dst : Bytes) (sp dp width height ss ds : Int) :
    (MatMemcpy_2d_ref src sp dst dp width height ss ds).length = dst.length := by
  simp [MatMemcpy_2d_ref]

theorem MatMemcpy_2d.loop_zero_width (src : Bytes) (ss ds : Int) :
    ∀ (k : Nat) (sp dp : Int) (dst : Bytes),
      MatMemcpy_2d.loop src 0 ss ds k sp dp dst = some dst := by
  intro k
  induction k with
  | zero => intro sp dp dst; rfl
  | succ k ih => intro sp dp dst; simp only [MatMemcpy_2d.loop, memcpy_zero, ih]

/-- C18. `MatMemcpy_2d` equals its reference definition.  For a non-negative `width` with
`width ≤ dst_stride` (the strides are then non-negative as far as the destination goes; the
source stride is not restricted), when every row lies inside the source and the destination
storage, the call returns the original destination in which, for every row `r < height`,
the bytes `[dst_ptr + r×dst_stride, ... + width)` are replaced by the source bytes
`[src_ptr + r×src_stride, ... + width)` and every other byte is unchanged; and when
`height ≤ 0` or `width = 0` the destination is returned unchanged, whatever the pointers. -/
theorem MatMemcpy_2d_eq_ref (src : Bytes) (sp : Int) (dst : Bytes) (dp : Int)
    (width height ss ds : Int)
    (hw : 0 ≤ width) (hwd : width ≤ ds) :
    ((∀ r : Nat, (r : Int) < height →
        0 ≤ sp + r * ss ∧ sp + r * ss + width ≤ src.length ∧
        0 ≤ dp + r * ds ∧ dp + r * ds + width ≤ dst.length) →
      MatMemcpy_2d src sp dst dp width height ss ds =
        some (MatMemcpy_2d_ref src sp dst dp width height ss ds)) ∧
    ((height ≤ 0 ∨ width = 0) →
      MatMemcpy_2d src sp dst dp width height ss ds = some dst) := by
  constructor
  · intro hb
    have hsome : ∃ d, MatMemcpy_2d src sp dst dp width height ss ds = some d := by
      unfold MatMemcpy_2d
      apply MatMemcpy_2d.loop_isSome
      by_cases hz : width = 0
      · exact Or.inl hz
      · exact Or.inr ⟨by omega, fun r hr => hb r (by omega)⟩
    obtain ⟨d, hd⟩ := hsome
    rw [hd]
    congr 1
    have hlen : d.length = dst.length := MatMemcpy_2d.loop_length _ hd
    apply List.ext_getElem?
    intro i
    by_cases hi : i < dst.length
    · have hdi : dst[i]? = some (dst.getD i 0) := by
        rw [List.getD_eq_getElem?_getD, List.getElem?_eq_getElem hi]; rfl
      unfold MatMemcpy_2d_ref
      rw [List.getElem?_map, List.getElem?_range hi, Option.map_some']
      cases hf : (List.range height.toNat).find? (fun (r : Nat) =>
          decide (dp + (r : Int) * ds ≤ (i : Int) ∧ (i : Int) < dp + (r : Int) * ds + width)) with
      | none =>
        simp only
        rw [← hdi]
        apply MatMemcpy_2d.loop_frame _ hd
        intro r hr
        have := List.find?_eq_none.1 hf r (List.mem_range.2 hr)
        simpa using this
      | some r =>
        simp only
        have hr : r < height.toNat := List.mem_range.1 (List.mem_of_find?_eq_some hf)
        have hp := List.find?_some hf
        simp only [decide_eq_true_eq] at hp
        have hbr := hb r (by omega)
        have hj : ((i : Int) - (dp + r * ds)).toNat = ((i : Int) - (dp + r * ds)) :=
          Int.toNat_of_nonneg (by omega)
        have hrow := MatMemcpy_2d.loop_row hwd _ hd r hr ((i : Int) - (dp + r * ds)).toNat
          (by omega)
        rw [hj] at hrow
        have e1 : (dp + (r : Int) * ds + ((i : Int) - (dp + r * ds))).toNat = i := by omega
        rw [e1] at hrow
        rw [hrow, List.getD_eq_getElem?_getD]
        have hin : (sp + (r : Int) * ss + ((i : Int) - (dp + r * ds))).toNat < src.length := by
          omega
        rw [List.getElem?_eq_getElem hin]; rfl
    · rw [List.getElem?_eq_none (by omega),
        List.getElem?_eq_none (by rw [MatMemcpy_2d_ref_length]; omega)]
  · intro h
    unfold MatMemcpy_2d
    rcases h with h | h
    · have : height.toNat = 0 := Int.toNat_eq_zero.2 h
      rw [this]; rfl
    · subst h; exact MatMemcpy_2d.loop_zero_width _ _ _ _ _ _ _

/-- Witness of C18: three rows of 2 bytes, source stride 5, destination stride 4, from
source offset 2 to destination offset 1; the padding bytes 100, 103, 104, 107, 108, 111
are kept. -/
theorem MatMemcpy_2d_eq_ref_witness :
    (((∀ r : Nat, (r : Int) < 3 →
          0 ≤ (2 : Int) + r * 5 ∧ (2 : Int) + r * 5 + 2 ≤ (ramp 0 24).length ∧
          0 ≤ (1 : Int) + r * 4 ∧ (1 : Int) + r * 4 + 2 ≤ (ramp 100 12).length) →
        MatMemcpy_2d (ramp 0 24) 2 (ramp 100 12) 1 2 3 5 4 =
          some (MatMemcpy_2d_ref (ramp 0 24) 2 (ramp 100 12) 1 2 3 5 4)) ∧
      (((3 : Int) ≤ 0 ∨ (2 : Int) = 0) →
        MatMemcpy_2d (ramp 0 24) 2 (ramp 100 12) 1 2 3 5 4 = some (ramp 100 12))) ∧
    MatMemcpy_2d_ref (ramp 0 24) 2 (ramp 100 12) 1 2 3 5 4 =
      [100, 2, 3, 103, 104, 7, 8, 107, 108, 12, 13, 111] ∧
    MatMemcpy_2d (ramp 0 24) 2 (ramp 100 12) 1 2 3 5 4 =
      some [100, 2, 3, 103, 104, 7, 8, 107, 108, 12, 13, 111] :=
  ⟨MatMemcpy_2d_eq_ref (ramp 0 24) 2 (ramp 100 12) 1 2 3 5 4 (by decide) (by decide),
    by decide, by decide⟩

/-- C19. `Crop` and `WarpAffine` are atomic on failure for a pre-allocated destination: for
every source, every destination whose storage is present and every parameter record, a
return with a status other than Ok returns the destination exactly as it was passed in,
every byte and every metadata field. -/
theorem error_keeps_preallocated_destination {F : Type} (K : Kernels F) (src dst : Mat)
    (dstData : Bytes) (cp : CropParam) (wp : WarpAffineParam F)
    (hdst : dst.data = some dstData) :
    (∀ s d, Crop src dst cp = some (s, d) → ¬ s.IsOk → d = dst) ∧
    (∀ s d, WarpAffine K src dst wp = some (s, d) → ¬ s.IsOk → d = dst) := by
  have hal : dst.allocateIfNull = dst := Mat.allocateIfNull_of_some hdst
  constructor
  · intro s d h hs
    rcases Crop_result_cases h with ⟨-, hd | ⟨-, hd⟩⟩ | ⟨hok, -⟩
    · exact hd
    · rw [hd, hal]
    · rw [hok] at hs; exact absurd rfl hs
  · intro s d h hs
    rcases WarpAffine_result_cases h with ⟨-, hd | ⟨-, hd⟩⟩ | ⟨hok, -⟩
    · exact hd
    · rw [hd, hal]
    · rw [hok] at hs; exact absurd rfl hs

/-- Witness of C19: `Crop` with an odd parameter on an NV12 source and `WarpAffine` with an
unsupported border type on a gray source, both with a pre-allocated destination; both
return an error and the destination bytes 100-105 are untouched. -/
theorem error_keeps_preallocated_destination_witness :
    ((∀ s d, Crop ⟨0, MatType.NNV12, [1, 1, 4, 4], some (ramp 0 24)⟩
          ⟨0, MatType.NNV12, [1, 1, 2, 2], some (ramp 100 6)⟩ ⟨1, 0, 2, 2⟩ = some (s, d) →
        ¬ s.IsOk → d = ⟨0, MatType.NNV12, [1, 1, 2, 2], some (ramp 100 6)⟩) ∧
      (∀ s d, WarpAffine Kernels.topLeftPixel
          ⟨0, MatType.NNV12, [1, 1, 4, 4], some (ramp 0 24)⟩
          ⟨0, MatType.NNV12, [1, 1, 2, 2], some (ramp 100 6)⟩
          ⟨[], InterpType.INTERP_TYPE_LINEAR, BorderType.OTHER 1, ()⟩ = some (s, d) →
        ¬ s.IsOk → d = ⟨0, MatType.NNV12, [1, 1, 2, 2], some (ramp 100 6)⟩)) ∧
    Crop ⟨0, MatType.NNV12, [1, 1, 4, 4], some (ramp 0 24)⟩
        ⟨0, MatType.NNV12, [1, 1, 2, 2], some (ramp 100 6)⟩ ⟨1, 0, 2, 2⟩ =
      some (⟨StatusCode.TNNERR_PARAM_ERR, "corp param can not be odd"⟩,
        ⟨0, MatType.NNV12, [1, 1, 2, 2], some (ramp 100 6)⟩) ∧
    WarpAffine Kernels.topLeftPixel ⟨0, MatType.NGRAY, [1, 1, 2, 2], some (ramp 0 4)⟩
        ⟨0, MatType.NGRAY, [1, 1, 2, 2], some (ramp 100 4)⟩
        ⟨[], InterpType.INTERP_TYPE_LINEAR, BorderType.OTHER 1, ()⟩ =
      some (⟨StatusCode.TNNERR_PARAM_ERR, "warpaffine type not support yet"⟩,
        ⟨0, MatType.NGRAY, [1, 1, 2, 2], some (ramp 100 4)⟩) :=
  ⟨error_keeps_preallocated_destination Kernels.topLeftPixel
      ⟨0, MatType.NNV12, [1, 1, 4, 4], some (ramp 0 24)⟩
      ⟨0, MatType.NNV12, [1, 1, 2, 2], some (ramp 100 6)⟩ (ramp 100 6) ⟨1, 0, 2, 2⟩
      ⟨[], InterpType.INTERP_TYPE_LINEAR, BorderType.OTHER 1, ()⟩ rfl,
    by decide, by decide⟩

/-- A copy reads only the source bytes of its range: two sources of equal length that agree
on the range give the same result. -/
theorem memcpy_src_congr {dst s1 s2 : Bytes} {dp sp n : Int} (hlen : s1.length = s2.length)
    (h : ∀ i : Nat, sp ≤ (i : Int) → (i : Int) < sp + n → s1[i]? = s2[i]?) :
    memcpy dst dp s1 sp n = memcpy dst dp s2 sp n := by
  unfold memcpy
  by_cases hn : n = 0
  · rw [if_pos hn, if_pos hn]
  · rw [if_neg hn, if_neg hn, hlen]
    split_ifs with hb
    · have hs : slice s1 sp n = slice s2 sp n := slice_congr hb.2.1 h
      unfold slice at hs
      rw [hs]
    · rfl

/-- The row loop reads only the source bytes of its rows. -/
theorem MatMemcpy_2d.loop_src_congr {s1 s2 : Bytes} {width ss ds : Int}
    (hlen : s1.length = s2.length) :
    ∀ (k : Nat) (sp dp : Int) (dst : Bytes),
      (∀ r : Nat, r < k → ∀ i : Nat, sp + r * ss ≤ (i : Int) →
        (i : Int) < sp + r * ss + width → s1[i]? = s2[i]?) →
      MatMemcpy_2d.loop s1 width ss ds k sp dp dst =
        MatMemcpy_2d.loop s2 width ss ds k sp dp dst := by
  intro k
  induction k with
  | zero => intro sp dp dst _; rfl
  | succ k ih =>
    intro sp dp dst h
    have h0 : memcpy dst dp s1 sp width = memcpy dst dp s2 sp width := by
      apply memcpy_src_congr hlen
      intro i hi1 hi2
      exact h 0 (Nat.succ_pos k) i (by simpa using hi1) (by simpa using hi2)
    simp only [MatMemcpy_2d.loop, h0]
    cases memcpy dst dp s2 sp width with
    | none => rfl
    | some d1 =>
      apply ih
      intro r hr i hi1 hi2
      have e : sp + ((r + 1 : Nat) : Int) * ss = sp + ss + r * ss := by push_cast; ring
      exact h (r + 1) (Nat.succ_lt_succ hr) i (by rw [e]; exact hi1) (by rw [e]; exact hi2)

/-- A defined strided copy to the start of the destination keeps the length and every
destination byte at or beyond `(height - 1) × dst_stride + width`. -/
theorem MatMemcpy_2d_frame_above {src dst d : Bytes} {sp width height ss ds : Int}
    (h : MatMemcpy_2d src sp dst 0 width height ss ds = some d) :
    d.length = dst.length ∧
      ∀ i : Nat, (height - 1) * ds + width ≤ (i : Int) → d[i]? = dst[i]? := by
  unfold MatMemcpy_2d at h
  refine ⟨MatMemcpy_2d.loop_length _ h, fun i hi => ?_⟩
  apply MatMemcpy_2d.loop_frame _ h
  intro r hr hc
  have hwpos : 0 < width := by omega
  have hrh : (r : Int) ≤ height - 1 := by omega
  by_cases hlast : (r : Int) = height - 1
  · rw [hlast] at hc; omega
  · have h1 : 1 < height.toNat := by omega
    have hb := MatMemcpy_2d.loop_bounds (by omega : width ≠ 0) _ h 1 h1
    have hds : 0 ≤ ds := by
      have := hb.2.2.1
      simpa using this
    have : (r : Int) * ds ≤ (height - 1) * ds := mul_le_mul_of_nonneg_right hrh hds
    omega

/-- The row width or stride `v × e` as the gray (`e = 1`, no product in the code) and the
3-channel branch of `Crop` compute it is the mathematical product when that fits in an
`int`. -/
theorem scaled_fit {v e : Int} (h0 : -2 ^ 31 ≤ v * e) (h1 : v * e < 2 ^ 31) :
    (if e = 1 then v else int_mul v e) = v * e := by
  split
  · next he => rw [he, mul_one]
  · exact int32_eq_self h0 h1

/-- The gray and 3-channel branches of `Crop` on a pre-allocated destination: one strided
copy from the start of the source storage plus the region offset, whatever the batch
count.  The gray branch passes the width and the strides as they are, the 3-channel branch
their `int` products with 3. -/
theorem Crop_gray_rgb_eq (src dst : Mat) (srcData dstData : Bytes) (cp : CropParam) (e : Int)
    (hfmt : (src.mat_type = MatType.NGRAY ∧ e = 1) ∨ (src.mat_type = MatType.N8UC3 ∧ e = 3))
    (hsrc : src.data = some srcData) (hdev : dst.device_type = src.device_type)
    (hdst : dst.data = some dstData) :
    Crop src dst cp =
      match MatMemcpy_2d srcData
          (if e = 1 then int_add cp.top_left_x (int_mul cp.top_left_y src.GetWidth)
            else int_mul (int_add cp.top_left_x (int_mul cp.top_left_y src.GetWidth)) e)
          dstData 0 (if e = 1 then cp.width else int_mul cp.width e) cp.height
          (if e = 1 then src.GetWidth else int_mul src.GetWidth e)
          (if e = 1 then dst.GetWidth else int_mul dst.GetWidth e) with
      | none => none
      | some d => some (Status.OK, { dst with data := some d }) := by
  have hdev' : ¬ src.GetDeviceType ≠ dst.GetDeviceType := by
    simp [Mat.GetDeviceType, hdev]
  unfold Crop
  simp only [Mat.GetData, hsrc, if_neg hdev', Mat.allocateIfNull_of_some hdst, hdst,
    Mat.GetMatType]
  rcases hfmt with ⟨hf, rfl⟩ | ⟨hf, rfl⟩
  · simp only [hf, if_true]
  · simp only [hf]
    simp

/-- C20. `Crop` on a gray or 3-channel source (element size `e` = 1 or 3) ignores the batch
dimension.  For such a source with storage present and dims `B :: rest`, and a pre-allocated
same-device destination whose row of `width × e` bytes and stride of `dstWidth × e` bytes
fit in an `int`: every defined run of `Crop` returns Ok and keeps the destination length and
every destination byte at or beyond `(height - 1)×dstWidth×e + width×e`; for a region inside
a source plane of `W×H×e` bytes that fit in an `int`, the result is the same for every
source of the same length that agrees with this one on the bytes `[0, W×H×e)` of batch 0;
whereas `WarpAffine` on the same source with linear interpolation and constant border calls
the kernel once for each of the `B` batches, with the `int` plane offsets `b×W×H×e` and
`b×dstW×dstH×e`. -/
theorem Crop_gray_rgb_ignores_batch {F : Type} (K : Kernels F) (src dst : Mat)
    (srcData dstData : Bytes) (cp : CropParam) (wp : WarpAffineParam F) (e B : Int)
    (rest : DimsVector)
    (hfmt : (src.mat_type = MatType.NGRAY ∧ e = 1) ∨ (src.mat_type = MatType.N8UC3 ∧ e = 3))
    (hdims : src.dims = B :: rest)
    (hsrc : src.data = some srcData) (hdev : dst.device_type = src.device_type)
    (hdst : dst.data = some dstData)
    (hwfit : -2 ^ 31 ≤ cp.width * e ∧ cp.width * e < 2 ^ 31)
    (hdfit : -2 ^ 31 ≤ dst.GetWidth * e ∧ dst.GetWidth * e < 2 ^ 31) :
    (∀ s d, Crop src dst cp = some (s, d) →
      s = Status.OK ∧ ∃ bytes, d = { dst with data := some bytes } ∧
        bytes.length = dstData.length ∧
        ∀ i : Nat, (cp.height - 1) * dst.GetWidth * e + cp.width * e ≤ (i : Int) →
          bytes[i]? = dstData[i]?) ∧
    (0 ≤ cp.top_left_x → 0 ≤ cp.top_left_y → 0 ≤ cp.width →
      cp.top_left_x + cp.width ≤ src.GetWidth → cp.top_left_y + cp.height ≤ src.GetHeight →
      src.GetWidth * src.GetHeight * e < 2 ^ 31 →
      ∀ srcData' : Bytes, srcData'.length = srcData.length →
        (∀ i : Nat, (i : Int) < src.GetWidth * src.GetHeight * e → srcData'[i]? = srcData[i]?) →
        Crop { src with data := some srcData' } dst cp = Crop src dst cp) ∧
    (wp.interp_type = InterpType.INTERP_TYPE_LINEAR →
      wp.border_type = BorderType.BORDER_TYPE_CONSTANT →
      WarpAffine K src dst wp = some (Status.OK, { dst with
        data := some ((List.range B.toNat).foldl (fun acc (b : Nat) =>
          K.warpaffine_bilinear srcData
            (int_mul (int_mul (int_mul (b : Int) src.GetWidth) src.GetHeight) e)
            src.GetWidth src.GetHeight e
            acc (int_mul (int_mul (int_mul (b : Int) dst.GetWidth) dst.GetHeight) e)
            dst.GetWidth dst.GetHeight wp.transform wp.border_val) dstData) })) := by
  have he : 1 ≤ e := by rcases hfmt with ⟨_, h⟩ | ⟨_, h⟩ <;> omega
  refine ⟨?_, ?_, ?_⟩
  · intro s d h
    rw [Crop_gray_rgb_eq src dst srcData dstData cp e hfmt hsrc hdev hdst,
      scaled_fit hwfit.1 hwfit.2, scaled_fit hdfit.1 hdfit.2] at h
    generalize (if e = 1 then int_add cp.top_left_x (int_mul cp.top_left_y src.GetWidth)
      else int_mul (int_add cp.top_left_x (int_mul cp.top_left_y src.GetWidth)) e) = off at h
    generalize (if e = 1 then src.GetWidth else int_mul src.GetWidth e) = ss at h
    cases hm : MatMemcpy_2d srcData off dstData 0 (cp.width * e) cp.height ss
        (dst.GetWidth * e) with
    | none => rw [hm] at h; cases h
    | some bytes =>
      rw [hm] at h
      cases h
      obtain ⟨hlen, hframe⟩ := MatMemcpy_2d_frame_above hm
      refine ⟨rfl, bytes, rfl, hlen, fun i hi => hframe i ?_⟩
      have : (cp.height - 1) * (dst.GetWidth * e) = (cp.height - 1) * dst.GetWidth * e := by
        ring
      omega
  · intro hx hy hw hxw hyh hfit srcData' hlen hagree
    have hfmt' : (({ src with data := some srcData' } : Mat).mat_type = MatType.NGRAY ∧ e = 1) ∨
        (({ src with data := some srcData' } : Mat).mat_type = MatType.N8UC3 ∧ e = 3) := hfmt
    have hgw : ({ src with data := some srcData' } : Mat).GetWidth = src.GetWidth := rfl
    rw [Crop_gray_rgb_eq src dst srcData dstData cp e hfmt hsrc hdev hdst,
      Crop_gray_rgb_eq { src with data := some srcData' } dst srcData' dstData cp e hfmt' rfl
        hdev hdst, hgw]
    by_cases hpos : 0 < cp.height
    swap
    · simp only [MatMemcpy_2d_no_rows (show cp.height ≤ 0 by omega)]
    obtain ⟨a1, a2, a3, -, -, h0, hWe⟩ := @packed_args_fit cp.top_left_x cp.top_left_y
      cp.width cp.height src.GetWidth src.GetHeight e he hx hy hw hxw hyh hpos hfit
    have hW0 : 0 ≤ src.GetWidth := by omega
    have hWe0 : 0 ≤ src.GetWidth * e := mul_nonneg hW0 (by omega)
    have hwe0 : 0 ≤ cp.width * e := mul_nonneg hw (by omega)
    have hwe : cp.width * e ≤ src.GetWidth * e := mul_le_mul_of_nonneg_right (by omega) (by omega)
    have hoff : (if e = 1 then int_add cp.top_left_x (int_mul cp.top_left_y src.GetWidth)
        else int_mul (int_add cp.top_left_x (int_mul cp.top_left_y src.GetWidth)) e) =
        (cp.top_left_x + cp.top_left_y * src.GetWidth) * e := by
      rw [a1, a2, a3]
      split
      · next h1 => rw [h1, mul_one]
      · rfl
    rw [hoff, scaled_fit (v := cp.width) (by omega) (by omega),
      scaled_fit (v := src.GetWidth) (by omega) (by omega)]
    generalize (if e = 1 then dst.GetWidth else int_mul dst.GetWidth e) = ds
    have hloop : MatMemcpy_2d srcData' ((cp.top_left_x + cp.top_left_y * src.GetWidth) * e)
        dstData 0 (cp.width * e) cp.height (src.GetWidth * e) ds =
        MatMemcpy_2d srcData ((cp.top_left_x + cp.top_left_y * src.GetWidth) * e)
        dstData 0 (cp.width * e) cp.height (src.GetWidth * e) ds := by
      unfold MatMemcpy_2d
      apply MatMemcpy_2d.loop_src_congr hlen
      intro r hr i hi1 hi2
      apply hagree
      have := @rect_bounds cp.top_left_x cp.top_left_y cp.width r src.GetWidth
        src.GetHeight e hx hy hw hxw (Int.ofNat_nonneg r) (by omega) (by omega)
      omega
    rw [hloop]
  · intro hl hb
    have hdst' : dst.allocateIfNull.data = some dstData := by
      rw [Mat.allocateIfNull_of_some hdst]; exact hdst
    rw [WarpAffine_eq K src dst srcData dstData wp B rest hsrc hdev hdst' hdims,
      Mat.allocateIfNull_of_some hdst]
    have hch : (if src.mat_type = MatType.NGRAY then (1 : Int)
        else if src.mat_type = MatType.N8UC3 then 3 else 4) = e := by
      rcases hfmt with ⟨hf, rfl⟩ | ⟨hf, rfl⟩ <;> simp [hf]
    have hf3 : src.mat_type = MatType.NGRAY ∨ src.mat_type = MatType.N8UC3 ∨
        src.mat_type = MatType.N8UC4 := by
      rcases hfmt with ⟨hf, -⟩ | ⟨hf, -⟩
      · exact Or.inl hf
      · exact Or.inr (Or.inl hf)
    rw [if_pos hf3, if_pos ⟨hl, hb⟩, hch, WarpAffine_loop_eq_foldl]
    simp only [zero_add]

/-- Witness of C20: a gray source and a pre-allocated destination of two 2×2 batches each.
`Crop` with the full 2×2 region copies the 4 bytes of batch 0 and keeps the destination
bytes 105..108 of batch 1, while `WarpAffine` (with the kernel that records its offsets)
calls the kernel for batch 0 at offsets 0, 0 and for batch 1 at offsets 4, 4. -/
theorem Crop_gray_rgb_ignores_batch_witness :
    ((∀ s d, Crop Sample.grayTwoBatches Sample.grayTwoBatchesDst ⟨0, 0, 2, 2⟩ = some (s, d) →
        s = Status.OK ∧ ∃ bytes, d = { Sample.grayTwoBatchesDst with data := some bytes } ∧
          bytes.length = (ramp 101 8).length ∧
          ∀ i : Nat, ((2 : Int) - 1) * Sample.grayTwoBatchesDst.GetWidth * 1 + 2 * 1 ≤ (i : Int) →
            bytes[i]? = (ramp 101 8)[i]?) ∧
      ((0 : Int) ≤ 0 → (0 : Int) ≤ 0 → (0 : Int) ≤ 2 →
        (0 : Int) + 2 ≤ Sample.grayTwoBatches.GetWidth → (0 : Int) + 2 ≤ Sample.grayTwoBatches.GetHeight →
        Sample.grayTwoBatches.GetWidth * Sample.grayTwoBatches.GetHeight * 1 < 2 ^ 31 →
        ∀ srcData' : Bytes, srcData'.length = (ramp 1 8).length →
          (∀ i : Nat, (i : Int) < Sample.grayTwoBatches.GetWidth * Sample.grayTwoBatches.GetHeight * 1 →
            srcData'[i]? = (ramp 1 8)[i]?) →
          Crop { Sample.grayTwoBatches with data := some srcData' } Sample.grayTwoBatchesDst ⟨0, 0, 2, 2⟩ =
            Crop Sample.grayTwoBatches Sample.grayTwoBatchesDst ⟨0, 0, 2, 2⟩) ∧
      (InterpType.INTERP_TYPE_LINEAR = InterpType.INTERP_TYPE_LINEAR →
        BorderType.BORDER_TYPE_CONSTANT = BorderType.BORDER_TYPE_CONSTANT →
        WarpAffine Kernels.recordOffsets Sample.grayTwoBatches Sample.grayTwoBatchesDst
            ⟨[], InterpType.INTERP_TYPE_LINEAR, BorderType.BORDER_TYPE_CONSTANT, ()⟩ =
          some (Status.OK, { Sample.grayTwoBatchesDst with
            data := some ((List.range (2 : Int).toNat).foldl (fun acc (b : Nat) =>
              Kernels.recordOffsets.warpaffine_bilinear (ramp 1 8)
                (int_mul (int_mul (int_mul (b : Int) Sample.grayTwoBatches.GetWidth)
                  Sample.grayTwoBatches.GetHeight) 1)
                Sample.grayTwoBatches.GetWidth Sample.grayTwoBatches.GetHeight 1
                acc (int_mul (int_mul (int_mul (b : Int) Sample.grayTwoBatchesDst.GetWidth)
                  Sample.grayTwoBatchesDst.GetHeight) 1)
                Sample.grayTwoBatchesDst.GetWidth Sample.grayTwoBatchesDst.GetHeight [] ()) (ramp 101 8)) }))) ∧
    Crop Sample.grayTwoBatches Sample.grayTwoBatchesDst ⟨0, 0, 2, 2⟩ =
      some (Status.OK, ⟨0, MatType.NGRAY, [2, 1, 2, 2],
        some [1, 2, 3, 4, 105, 106, 107, 108]⟩) ∧
    WarpAffine Kernels.recordOffsets Sample.grayTwoBatches Sample.grayTwoBatchesDst
        ⟨[], InterpType.INTERP_TYPE_LINEAR, BorderType.BORDER_TYPE_CONSTANT, ()⟩ =
      some (Status.OK, ⟨0, MatType.NGRAY, [2, 1, 2, 2],
        some [101, 102, 103, 104, 105, 106, 107, 108, 0, 0, 4, 4]⟩) :=
  ⟨Crop_gray_rgb_ignores_batch Kernels.recordOffsets Sample.grayTwoBatches Sample.grayTwoBatchesDst (ramp 1 8) (ramp 101 8)
      ⟨0, 0, 2, 2⟩ ⟨[], InterpType.INTERP_TYPE_LINEAR, BorderType.BORDER_TYPE_CONSTANT, ()⟩ 1 2
      [1, 2, 2] (Or.inl ⟨rfl, rfl⟩) rfl rfl rfl rfl ⟨by decide, by decide⟩
      ⟨by decide, by decide⟩,
    by decide, by decide⟩

end TNN
